import Mathlib

/-!
Verification development for the Matroska/EBML demuxer core of the
gemini-srt-translator-go repository (pkg/matroska: ebml.go, matroska.go,
packet.go, and the element id constants file).

The Go code is shallowly embedded: byte sources become a Reader over a
list of bytes (Fin 256), Go uint64 arithmetic is Nat with explicit
reduction modulo 2 to the 64 where the source can wrap, fallible Go
functions return Except, and in-place mutation becomes explicit state
passing.  Loops are implemented by structural recursion on a fuel
counter that strictly exceeds the number of iterations the Go loop can
perform on the given data (every loop iteration consumes at least one
byte of the bounded region); the fuel-exhaustion branch is unreachable
on the inputs appearing in the theorems below.

Floating point payloads (SegmentInfo duration, track and audio scale
fields, colour mastering metadata) are carried as their raw big-endian
bit patterns; no verified claim depends on float values.
-/

namespace Mkv

/-- One byte of input, as in the Go byte type. -/
abbrev Byte := Fin 256

/-- Errors of the embedded code.  eof models io.EOF, unexpectedEof models
io.ErrUnexpectedEOF (returned by io.ReadFull on a partial read),
invalidEBML models ErrInvalidEBML, elementTooLarge models
ErrElementTooLarge, errMsg models errors.New and fmt.Errorf values, and
wrap models fmt.Errorf with a wrapped cause. -/
inductive MkvErr where
  | eof
  | unexpectedEof
  | invalidEBML
  | elementTooLarge
  | errMsg (msg : String)
  | wrap (ctx : String) (e : MkvErr)
deriving DecidableEq

/-- The byte source together with the reader position.  Models the pair of
an io.ReadSeeker and the EBMLReader position counter, which the Go code
keeps in sync. -/
structure Reader where
  data : List Byte
  pos : Nat
deriving DecidableEq

/-- Reading a single byte: the one-byte Read calls in ebml.go. -/
def readByte (r : Reader) : Except MkvErr (Byte × Reader) :=
  match r.data.get? r.pos with
  | some b => .ok (b, ⟨r.data, r.pos + 1⟩)
  | none => .error .eof

/-- Width of a VINT whose first byte is b (a byte value below 256), as
computed by the descending bit scan in ReadVINT and ReadVINTRaw:
the highest set bit at position i gives width 8 - i. -/
def vintWidth (b : Nat) : Nat :=
  if 128 ≤ b then 1
  else if 64 ≤ b then 2
  else if 32 ≤ b then 3
  else if 16 ≤ b then 4
  else if 8 ≤ b then 5
  else if 4 ≤ b then 6
  else if 2 ≤ b then 7
  else if 1 ≤ b then 8
  else 0

/-- The value mask for the first VINT byte: (1 shifted left by i) - 1
where i = 8 - width. -/
def vintMask (b : Nat) : Nat := 2 ^ (8 - vintWidth b) - 1

/-- The continuation-byte loop shared by ReadVINT and ReadVINTRaw:
value = (value concatenated with the next byte), n more bytes. -/
def readVINTLoop : Reader → Nat → Nat → Except MkvErr (Nat × Reader)
  | r, 0, acc => .ok (acc, r)
  | r, n + 1, acc =>
    match readByte r with
    | .error e => .error e
    | .ok (b, r1) => readVINTLoop r1 n (acc * 256 + b.val)

/-- EBMLReader.ReadVINT: size/value flavour, the length marker bit is
masked off the first byte.  Returns (value, width, advanced reader). -/
def ReadVINT (r : Reader) : Except MkvErr (Nat × Nat × Reader) :=
  match readByte r with
  | .error e => .error e
  | .ok (first, r1) =>
    if first.val = 0 then .error .invalidEBML
    else
      let w := vintWidth first.val
      if w = 0 then .error .invalidEBML
      else
        match readVINTLoop r1 (w - 1) (first.val &&& vintMask first.val) with
        | .error e => .error e
        | .ok (v, r2) => .ok (v, w, r2)

/-- EBMLReader.ReadVINTRaw: element-id flavour, the length marker bit is
retained in the returned value. -/
def ReadVINTRaw (r : Reader) : Except MkvErr (Nat × Nat × Reader) :=
  match readByte r with
  | .error e => .error e
  | .ok (first, r1) =>
    if first.val = 0 then .error .invalidEBML
    else
      let w := vintWidth first.val
      if w = 0 then .error .invalidEBML
      else
        match readVINTLoop r1 (w - 1) first.val with
        | .error e => .error e
        | .ok (v, r2) => .ok (v, w, r2)

/-- EBMLReader.ReadElementID: a raw VINT truncated to uint32. -/
def ReadElementID (r : Reader) : Except MkvErr (Nat × Reader) :=
  match ReadVINTRaw r with
  | .error e => .error e
  | .ok (id, _, r1) => .ok (id % 2 ^ 32, r1)

/-- EBMLReader.ReadElementSize: a VINT; the exact value 2 ^ 56 - 1 (the
eight-byte all-value-bits-set pattern) is reported as the unknown-size
sentinel math.MaxUint64 = 2 ^ 64 - 1. -/
def ReadElementSize (r : Reader) : Except MkvErr (Nat × Reader) :=
  match ReadVINT r with
  | .error e => .error e
  | .ok (size, _, r1) =>
    if size = 2 ^ 56 - 1 then .ok (2 ^ 64 - 1, r1)
    else .ok (size, r1)

/-- io.ReadFull against the byte source: n bytes are read in full, or eof
when nothing is available, or unexpectedEof on a partial read. -/
def readFull (r : Reader) (n : Nat) : Except MkvErr (List Byte × Reader) :=
  if n = 0 then .ok ([], r)
  else if r.data.length ≤ r.pos then .error .eof
  else if r.data.length - r.pos < n then .error .unexpectedEof
  else .ok ((r.data.drop r.pos).take n, ⟨r.data, r.pos + n⟩)

/-- EBMLElement: Data is none exactly where the Go field is nil (the two
large container types with known size, and unknown-size elements). -/
structure EBMLElement where
  ID : Nat
  Size : Nat
  Data : Option (List Byte)
  Offset : Nat
  HeaderSize : Nat
deriving DecidableEq

/-- EBMLElement.IsContainer: the fixed id list from ebml.go. -/
def IsContainer (id : Nat) : Bool :=
  id == 0x1A45DFA3 || id == 0x18538067 || id == 0x1549A966 ||
  id == 0x1654AE6B || id == 0x1F43B675 ||
  id == 0xAE || id == 0x1043A770 || id == 0x1254C367 || id == 0x1941A469

/-- EBMLReader.ReadElement: id, size, then the payload; Segment
(0x18538067) and Cluster (0x1F43B675) payloads are deliberately not
buffered; any other known size above math.MaxInt32 = 2 ^ 31 - 1 fails
with elementTooLarge; otherwise exactly size bytes are buffered. -/
def ReadElement (r : Reader) : Except MkvErr (EBMLElement × Reader) :=
  let startPos := r.pos
  match ReadElementID r with
  | .error e => .error e
  | .ok (id, r1) =>
    match ReadElementSize r1 with
    | .error e => .error e
    | .ok (size, r2) =>
      let headerSize := r2.pos - startPos
      if size ≠ 2 ^ 64 - 1 then
        if IsContainer id && (id == 0x18538067 || id == 0x1F43B675) then
          .ok (⟨id, size, none, startPos, headerSize⟩, r2)
        else if 2 ^ 31 - 1 < size then .error .elementTooLarge
        else
          match readFull r2 size with
          | .error e => .error e
          | .ok (bytes, r3) => .ok (⟨id, size, some bytes, startPos, headerSize⟩, r3)
      else .ok (⟨id, size, none, startPos, headerSize⟩, r2)

/-- EBMLElement.ReadUint: a big-endian unsigned fold of at most 8 data
bytes (a nil payload reads as zero, as ranging over a nil Go slice). -/
def EBMLElement.ReadUint (e : EBMLElement) : Except MkvErr Nat :=
  let d := e.Data.getD []
  if 8 < d.length then .error .invalidEBML
  else .ok (d.foldl (fun v b => v * 256 + b.val) 0)

/-- EBMLElement.ReadInt: sign-extended big-endian fold of at most 8 data
bytes. -/
def EBMLElement.ReadInt (e : EBMLElement) : Except MkvErr Int :=
  let d := e.Data.getD []
  if 8 < d.length then .error .invalidEBML
  else
    match d with
    | [] => .ok 0
    | b0 :: _ =>
      let init : Int := if b0.val &&& 0x80 ≠ 0 then -1 else 0
      .ok (d.foldl (fun v b => v * 256 + (b.val : Int)) init)

/-- EBMLElement.ReadFloat: requires a 4-byte or 8-byte payload.  The raw
big-endian bit pattern is returned; IEEE float semantics are not
modelled, and no verified claim depends on float values. -/
def EBMLElement.ReadFloat (e : EBMLElement) : Except MkvErr Nat :=
  let d := e.Data.getD []
  if d.length = 4 ∨ d.length = 8 then
    .ok (d.foldl (fun v b => v * 256 + b.val) 0)
  else .error .invalidEBML

/-- EBMLElement.ReadString and ReadBytes: the payload bytes (the Go copy
made by ReadBytes is value-identical). -/
def EBMLElement.ReadStringB (e : EBMLElement) : List Byte := e.Data.getD []

/-- ParseEBMLChildren loop: collect child elements until the region end,
treating eof as normal termination. -/
def parseEBMLChildrenLoop (endPos : Nat) :
    Nat → Reader → List EBMLElement → Except MkvErr (List EBMLElement)
  | 0, _, _ => .error (.errMsg "fuel")
  | fuel + 1, r, acc =>
    if r.pos < endPos then
      match ReadElement r with
      | .error .eof => .ok acc
      | .error e => .error e
      | .ok (child, r1) => parseEBMLChildrenLoop endPos fuel r1 (acc ++ [child])
    else .ok acc

/-- ParseEBMLChildren over a fully buffered payload (start position 0). -/
def ParseEBMLChildren (data : List Byte) : Except MkvErr (List EBMLElement) :=
  parseEBMLChildrenLoop data.length (data.length + 1) ⟨data, 0⟩ []

/-! Element id constants, from the constants file of the matroska package. -/

def EBMLHeaderID : Nat := 0x1A45DFA3
def DocTypeID : Nat := 0x4282
def DocTypeVersionID : Nat := 0x4287
def SegmentID : Nat := 0x18538067
def SeekHeadID : Nat := 0x114D9B74
def SegmentInfoID : Nat := 0x1549A966
def TracksID : Nat := 0x1654AE6B
def CuesID : Nat := 0x1C53BB6B
def AttachmentsID : Nat := 0x1941A469
def ChaptersID : Nat := 0x1043A770
def TagsID : Nat := 0x1254C367
def ClusterID : Nat := 0x1F43B675
def SeekID : Nat := 0x4DBB
def SeekIDElementID : Nat := 0x53AB
def SeekPositionID : Nat := 0x53AC
def TimecodeScaleID : Nat := 0x2AD7B1
def DurationID : Nat := 0x4489
def DateUTCID : Nat := 0x4461
def TitleID : Nat := 0x7BA9
def MuxingAppID : Nat := 0x4D80
def WritingAppID : Nat := 0x5741
def SegmentUIDID : Nat := 0x73A4
def SegmentFilenameID : Nat := 0x7384
def PrevUIDID : Nat := 0x3CB923
def PrevFilenameID : Nat := 0x3C83AB
def NextUIDID : Nat := 0x3EB923
def NextFilenameID : Nat := 0x3E83BB
def TrackEntryID : Nat := 0xAE
def TrackNumberID : Nat := 0xD7
def TrackUIDID : Nat := 0x73C5
def TrackTypeID : Nat := 0x83
def FlagEnabledID : Nat := 0xB9
def FlagDefaultID : Nat := 0x88
def FlagForcedID : Nat := 0x55AA
def FlagLacingID : Nat := 0x9C
def MinCacheID : Nat := 0x6DE7
def MaxCacheID : Nat := 0x6DF8
def DefaultDurationID : Nat := 0x23E383
def MaxBlockAdditionIDID : Nat := 0x55EE
def NameID : Nat := 0x536E
def LanguageID : Nat := 0x22B59C
def CodecIDID : Nat := 0x86
def CodecPrivateID : Nat := 0x63A2
def CodecDelayID : Nat := 0x56AA
def SeekPreRollID : Nat := 0x56BB
def TrackTimecodeScaleID : Nat := 0x23314F
def VideoID : Nat := 0xE0
def FlagInterlacedID : Nat := 0x9A
def StereoModeID : Nat := 0x53B8
def PixelWidthID : Nat := 0xB0
def PixelHeightID : Nat := 0xBA
def PixelCropBottomID : Nat := 0x54AA
def PixelCropTopID : Nat := 0x54BB
def PixelCropLeftID : Nat := 0x54CC
def PixelCropRightID : Nat := 0x54DD
def DisplayWidthID : Nat := 0x54B0
def DisplayHeightID : Nat := 0x54BA
def DisplayUnitID : Nat := 0x54B2
def AspectRatioTypeID : Nat := 0x54B3
def ColourSpaceID : Nat := 0x2EB524
def GammaValueID : Nat := 0x2FB523
def ColorID : Nat := 0x55B0
def MatrixCoefficientsID : Nat := 0x55B1
def BitsPerChannelID : Nat := 0x55B2
def ChromaSubsamplingHorzID : Nat := 0x55B3
def ChromaSubsamplingVertID : Nat := 0x55B4
def CbSubsamplingHorzID : Nat := 0x55B5
def CbSubsamplingVertID : Nat := 0x55B6
def ChromaSitingHorzID : Nat := 0x55B7
def ChromaSitingVertID : Nat := 0x55B8
def RangeID : Nat := 0x55B9
def TransferCharacteristicsID : Nat := 0x55BA
def PrimariesID : Nat := 0x55BB
def MaxCLLID : Nat := 0x55BC
def MaxFALLID : Nat := 0x55BD
def MasteringMetadataID : Nat := 0x55D0
def PrimaryRChromaticityXID : Nat := 0x55D1
def PrimaryRChromaticityYID : Nat := 0x55D2
def PrimaryGChromaticityXID : Nat := 0x55D3
def PrimaryGChromaticityYID : Nat := 0x55D4
def PrimaryBChromaticityXID : Nat := 0x55D5
def PrimaryBChromaticityYID : Nat := 0x55D6
def WhitePointChromaticityXID : Nat := 0x55D7
def WhitePointChromaticityYID : Nat := 0x55D8
def LuminanceMaxID : Nat := 0x55D9
def LuminanceMinID : Nat := 0x55DA
def AudioID : Nat := 0xE1
def SamplingFrequencyID : Nat := 0xB5
def OutputSamplingFrequencyID : Nat := 0x78B5
def ChannelsID : Nat := 0x9F
def BitDepthID : Nat := 0x6264
def ContentEncodingsID : Nat := 0x6D80
def ContentEncodingID : Nat := 0x6240
def ContentCompressionID : Nat := 0x5034
def ContentCompAlgoID : Nat := 0x4254
def ContentCompSettingsID : Nat := 0x4255
def TimecodeID : Nat := 0xE7
def SimpleBlockID : Nat := 0xA3
def BlockGroupID : Nat := 0xA0
def BlockID : Nat := 0xA1
def BlockDurationID : Nat := 0x9B
def ReferenceBlockID : Nat := 0xFB
def CuePointID : Nat := 0xBB
def CueTimeID : Nat := 0xB3
def CueTrackPositionsID : Nat := 0xB7
def CueTrackID : Nat := 0xF7
def CueClusterPositionID : Nat := 0xF1
def CueRelativePositionID : Nat := 0xF0
def CueDurationID : Nat := 0xB2
def CueBlockNumberID : Nat := 0x5378
def AttachedFileID : Nat := 0x61A7
def FileDescriptionID : Nat := 0x467E
def FileNameID : Nat := 0x466E
def FileMimeTypeID : Nat := 0x4660
def FileDataID : Nat := 0x465C
def FileUIDID : Nat := 0x46AE
def EditionEntryID : Nat := 0x45B9
def ChapterAtomID : Nat := 0xB6
def ChapterUIDID : Nat := 0x73C4
def ChapterTimeStartID : Nat := 0x91
def ChapterTimeEndID : Nat := 0x92
def ChapterFlagHiddenID : Nat := 0x98
def ChapterFlagEnabledID : Nat := 0x4598
def ChapterSegmentUIDID : Nat := 0x6E67
def ChapterDisplayID : Nat := 0x80
def ChapStringID : Nat := 0x85
def ChapLanguageID : Nat := 0x437C
def ChapCountryID : Nat := 0x437E
def ChapterProcessID : Nat := 0x6944
def ChapterProcessCodecIDID : Nat := 0x6955
def ChapterProcessPrivateID : Nat := 0x450D
def ChapterProcessCommandID : Nat := 0x6911
def ChapterProcessTimeID : Nat := 0x6922
def ChapterProcessDataID : Nat := 0x6933
def TagID : Nat := 0x7373
def TargetsID : Nat := 0x63C0
def TargetTypeValueID : Nat := 0x68CA
def TagTrackUIDID : Nat := 0x63C5
def SimpleTagID : Nat := 0x67C8
def TagNameID : Nat := 0x45A3
def TagStringID : Nat := 0x4487
def TagLanguageID : Nat := 0x447A
def TagDefaultID : Nat := 0x4484

/-- Modelled from the spec: the KF keyframe bit of the Packet flags word.
The constant itself is declared in a repository source file that is not
under src (alongside the Packet and TrackInfo struct declarations); the
spec describes the flags word as carrying at minimum a distinguished
keyframe bit, so KF is modelled as bit 31, disjoint from the low eight
bits in which the demuxer stores the raw block flags byte. -/
def KF : Nat := 2 ^ 31

/-! Catalog record types.  Their struct declarations live in a repository
file that is not under src; the fields below are exactly those read and
written by the code under src. -/

structure SegmentInfo where
  TimecodeScale : Nat := 1000000
  Duration : Nat := 0
  DateUTC : Int := 0
  DateUTCValid : Bool := false
  Title : List Byte := []
  MuxingApp : List Byte := []
  WritingApp : List Byte := []
  UID : List Byte := List.replicate 16 0
  Filename : List Byte := []
  PrevUID : List Byte := List.replicate 16 0
  PrevFilename : List Byte := []
  NextUID : List Byte := List.replicate 16 0
  NextFilename : List Byte := []
deriving DecidableEq

structure MasteringMetadata where
  PrimaryRChromaticityX : Nat := 0
  PrimaryRChromaticityY : Nat := 0
  PrimaryGChromaticityX : Nat := 0
  PrimaryGChromaticityY : Nat := 0
  PrimaryBChromaticityX : Nat := 0
  PrimaryBChromaticityY : Nat := 0
  WhitePointChromaticityX : Nat := 0
  WhitePointChromaticityY : Nat := 0
  LuminanceMax : Nat := 0
  LuminanceMin : Nat := 0
deriving DecidableEq

structure ColourInfo where
  MatrixCoefficients : Nat := 0
  BitsPerChannel : Nat := 0
  ChromaSubsamplingHorz : Nat := 0
  ChromaSubsamplingVert : Nat := 0
  CbSubsamplingHorz : Nat := 0
  CbSubsamplingVert : Nat := 0
  ChromaSitingHorz : Nat := 0
  ChromaSitingVert : Nat := 0
  Range : Nat := 0
  TransferCharacteristics : Nat := 0
  Primaries : Nat := 0
  MaxCLL : Nat := 0
  MaxFALL : Nat := 0
  Mastering : MasteringMetadata := {}
deriving DecidableEq

structure VideoInfo where
  Interlaced : Bool := false
  StereoMode : Nat := 0
  PixelWidth : Nat := 0
  PixelHeight : Nat := 0
  DisplayWidth : Nat := 0
  DisplayHeight : Nat := 0
  DisplayUnit : Nat := 0
  AspectRatioType : Nat := 0
  CropL : Nat := 0
  CropT : Nat := 0
  CropR : Nat := 0
  CropB : Nat := 0
  ColourSpace : Nat := 0
  GammaValue : Nat := 0
  Colour : ColourInfo := {}
deriving DecidableEq

structure AudioInfo where
  SamplingFreq : Nat := 0
  OutputSamplingFreq : Nat := 0
  Channels : Nat := 0
  BitDepth : Nat := 0
deriving DecidableEq

structure TrackInfo where
  Number : Nat := 0
  UID : Nat := 0
  -- the Go field is named Type, a keyword here
  TrackType : Nat := 0
  Enabled : Bool := false
  Default : Bool := false
  Forced : Bool := false
  Lacing : Bool := false
  MinCache : Nat := 0
  MaxCache : Nat := 0
  DefaultDuration : Nat := 0
  CodecDelay : Nat := 0
  SeekPreRoll : Nat := 0
  TimecodeScale : Nat := 0
  MaxBlockAdditionID : Nat := 0
  Name : List Byte := []
  Language : List Byte := []
  CodecID : List Byte := []
  CodecPrivate : List Byte := []
  Video : VideoInfo := {}
  AudioRec : AudioInfo := {}
  CompMethod : Nat := 0
  CompEnabled : Bool := false
  CompMethodPrivate : List Byte := []
deriving DecidableEq

structure Attachment where
  Name : List Byte := []
  Description : List Byte := []
  MimeType : List Byte := []
  UID : Nat := 0
  Position : Nat := 0
  Length : Nat := 0
deriving DecidableEq

structure ChapterDisplay where
  DisplayString : List Byte := []
  Language : List Byte := []
  Country : List Byte := []
deriving DecidableEq

structure ChapterCommand where
  Time : Nat := 0
  Command : List Byte := []
deriving DecidableEq

structure ChapterProcess where
  CodecID : Nat := 0
  CodecPrivate : List Byte := []
  Commands : List ChapterCommand := []
deriving DecidableEq

structure Chapter where
  UID : Nat
  Start : Nat
  End : Nat
  Hidden : Bool
  Enabled : Bool
  SegmentUID : List Byte
  Tracks : List Nat
  Display : List ChapterDisplay
  Children : List Chapter
  Process : List ChapterProcess

structure Target where
  -- the Go field is named Type, a keyword here
  TargetType : Nat := 0
  UID : Nat := 0
deriving DecidableEq

structure SimpleTag where
  Name : List Byte := []
  Value : List Byte := []
  Language : List Byte := []
  Default : Bool := false
deriving DecidableEq

structure Tag where
  Targets : List Target := []
  SimpleTags : List SimpleTag := []
deriving DecidableEq

structure Cue where
  Time : Nat := 0
  Duration : Nat := 0
  Track : Nat := 0
  Position : Nat := 0
  RelativePosition : Nat := 0
  Block : Nat := 0
deriving DecidableEq

/-- ClusterInfo, from matroska.go. -/
structure ClusterInfo where
  Position : Nat := 0
  Timecode : Nat := 0
  PrevSize : Nat := 0
  Size : Nat := 0
deriving DecidableEq

/-- Packet fields, exactly those constructed by packet.go (the struct
declaration itself lives outside src).  Track is a Go uint8, so the
constructing code reduces the track number modulo 256. -/
structure Packet where
  Track : Nat
  StartTime : Nat
  EndTime : Nat
  FilePos : Nat
  Flags : Nat
  Data : List Byte
deriving DecidableEq

/-- Parser state: the EBMLReader over the file plus the catalog fields of
the Go Parser struct. -/
structure ParserState where
  file : List Byte
  pos : Nat
  segmentPos : Nat
  segmentSize : Nat
  segmentInfo : Option SegmentInfo
  tracks : List TrackInfo
  attachments : List Attachment
  chapters : List Chapter
  tags : List Tag
  cues : List Cue
  clusters : List ClusterInfo
  avoidSeeks : Bool

/-- PacketReader state, from packet.go. clusterReader is none where the
Go field is nil. -/
structure PacketReaderState where
  trackMask : Nat
  currentCluster : Option ClusterInfo
  clusterData : List Byte
  clusterReader : Option Reader
  lowestTimecode : Nat

/-- The fresh PacketReader created by NewPacketReader. -/
def initPacketReader : PacketReaderState :=
  { trackMask := 0, currentCluster := none, clusterData := [],
    clusterReader := none, lowestTimecode := 0 }

/-! The cluster and packet demuxer, from packet.go. -/

/-- PacketReader.readVINT over an in-memory slice: returns (value, width),
or (0, 0) on a zero lead byte or a width exceeding the slice. -/
def readVINTData (data : List Byte) : Nat × Nat :=
  match data with
  | [] => (0, 0)
  | first :: _ =>
    if first.val = 0 then (0, 0)
    else
      let w := vintWidth first.val
      if w = 0 ∨ data.length < w then (0, 0)
      else
        (((data.drop 1).take (w - 1)).foldl (fun v b => v * 256 + b.val)
          (first.val &&& vintMask first.val), w)

/-- The Go expression 1 shifted left by n on uint64: zero once the shift
count reaches the word width. -/
def goShl1 (n : Nat) : Nat := if n < 64 then 2 ^ n else 0

/-- The Go conversion chain uint64(int16(x)) for a 16-bit big-endian
value x: values with the sign bit set become their two-complement
64-bit images. -/
def uint64OfInt16 (t : Nat) : Nat :=
  if t < 32768 then t else 2 ^ 64 - (65536 - t)

/-- PacketReader.parseSimpleBlock.  ct is the current cluster base
timecode (pr.currentCluster.Timecode in Go). -/
def parseSimpleBlock (ct : Nat) (element : EBMLElement) (mask : Nat) :
    Except MkvErr (Option Packet) :=
  let data := element.Data.getD []
  if data.length < 4 then .error (.errMsg "invalid simple block")
  else
    let tw := readVINTData data
    let trackNum := tw.1
    let trackSize := tw.2
    if data.length ≤ trackSize then
      .error (.errMsg "invalid track number in simple block")
    else if mask &&& goShl1 trackNum ≠ 0 then .ok none
    else
      match data.drop trackSize with
      | b0 :: b1 :: fl :: rest =>
        let startTime := (ct + uint64OfInt16 (b0.val * 256 + b1.val)) % 2 ^ 64
        let packet : Packet :=
          { Track := trackNum % 256, StartTime := startTime, EndTime := startTime,
            FilePos := element.Offset, Flags := fl.val, Data := rest }
        .ok (some (if fl.val &&& 0x80 ≠ 0 then { packet with Flags := packet.Flags ||| KF }
                   else packet))
      | _ => .error (.errMsg "invalid simple block timestamp")

/-- PacketReader.parseBlockData: the Block inside a BlockGroup.  Unlike
parseSimpleBlock there is no track-width validity check before the mask
test, and no keyframe bit is derived here. -/
def parseBlockData (ct : Nat) (data : List Byte) (mask offset : Nat) :
    Except MkvErr (Option Packet) :=
  if data.length < 4 then .error (.errMsg "invalid block data")
  else
    let tw := readVINTData data
    let trackNum := tw.1
    let trackSize := tw.2
    if mask &&& goShl1 trackNum ≠ 0 then .ok none
    else
      match data.drop trackSize with
      | b0 :: b1 :: fl :: rest =>
        let startTime := (ct + uint64OfInt16 (b0.val * 256 + b1.val)) % 2 ^ 64
        .ok (some { Track := trackNum % 256, StartTime := startTime, EndTime := startTime,
                    FilePos := offset, Flags := fl.val, Data := rest })
      | _ => .error (.errMsg "invalid block timestamp")

/-- The bounded read-children loop shared by the metadata sub-parsers:
read one element at a time until the region end, treating eof as normal
termination, and feed each child to the step function. -/
def parseChildrenLoop {σ : Type} (step : σ → EBMLElement → Except MkvErr σ) :
    Nat → Reader → σ → Except MkvErr σ
  | 0, _, _ => .error (.errMsg "fuel")
  | fuel + 1, r, acc =>
    if r.pos < r.data.length then
      match ReadElement r with
      | .error .eof => .ok acc
      | .error e => .error e
      | .ok (child, r1) =>
        match step acc child with
        | .error e => .error e
        | .ok acc1 => parseChildrenLoop step fuel r1 acc1
    else .ok acc

/-- parseChildren over a fully buffered payload. -/
def parseChildren {σ : Type} (data : List Byte)
    (step : σ → EBMLElement → Except MkvErr σ) (init : σ) : Except MkvErr σ :=
  parseChildrenLoop step (data.length + 1) ⟨data, 0⟩ init

/-- The child dispatch of PacketReader.parseBlockGroup: the collected
state is (blockData, duration, referenceBlocks). -/
def bgStep (acc : List Byte × Nat × List Int) (child : EBMLElement) :
    Except MkvErr (List Byte × Nat × List Int) :=
  if child.ID = BlockID then .ok (child.Data.getD [], acc.2.1, acc.2.2)
  else if child.ID = BlockDurationID then
    match child.ReadUint with
    | .error e => .error e
    | .ok v => .ok (acc.1, v, acc.2.2)
  else if child.ID = ReferenceBlockID then
    match child.ReadInt with
    | .error e => .error e
    | .ok v => .ok (acc.1, acc.2.1, acc.2.2 ++ [v])
  else .ok acc

/-- The child-collection loop of parseBlockGroup. -/
def bgCollect (data : List Byte) : Except MkvErr (List Byte × Nat × List Int) :=
  parseChildren data bgStep ([], 0, [])

/-- PacketReader.parseBlockGroup. -/
def parseBlockGroup (ct : Nat) (element : EBMLElement) (mask : Nat) :
    Except MkvErr (Option Packet) :=
  match bgCollect (element.Data.getD []) with
  | .error e => .error e
  | .ok (blockData, duration, referenceBlocks) =>
    if blockData.length = 0 then .error (.errMsg "no block data in block group")
    else
      match parseBlockData ct blockData mask element.Offset with
      | .error e => .error e
      | .ok none => .ok none
      | .ok (some packet) =>
        let packet1 := if 0 < duration then
            { packet with EndTime := (packet.StartTime + duration) % 2 ^ 64 }
          else packet
        let packet2 := if referenceBlocks.length = 0 then
            { packet1 with Flags := packet1.Flags ||| KF }
          else packet1
        .ok (some packet2)

/-- Parser.parseClusterInfo: only position and declared size are
recorded; the payload, and in particular its Timecode child, is not
decoded (the Go function never returns an error). -/
def parseClusterInfo (element : EBMLElement) : ClusterInfo :=
  { Position := element.Offset, Size := element.Size, Timecode := 0, PrevSize := 0 }

/-- PacketReader.loadClusterData: seek to the current cluster, re-read
its header, then buffer the entire declared payload (ReadElement leaves
Cluster payloads unread, so the Go code reads them here with
io.ReadFull against the underlying reader).  The returned ParserState
carries the advanced underlying byte cursor. -/
def loadClusterData (p : ParserState) (pr : PacketReaderState) :
    Except MkvErr (ParserState × PacketReaderState) :=
  match pr.currentCluster with
  | none => .error (.errMsg "nil current cluster")
  | some c =>
    match ReadElement ⟨p.file, c.Position⟩ with
    | .error e => .error e
    | .ok (element, r1) =>
      if element.ID = ClusterID then
        match element.Data with
        | none =>
          let dataStart := (element.Offset + element.HeaderSize) % 2 ^ 64
          match readFull ⟨p.file, dataStart⟩ element.Size with
          | .error e => .error e
          | .ok (clusterData, r2) =>
            .ok ({ p with pos := r2.pos },
                 { pr with clusterData := clusterData,
                           clusterReader := some ⟨clusterData, 0⟩ })
        | some d =>
          .ok ({ p with pos := r1.pos },
               { pr with clusterData := d, clusterReader := some ⟨d, 0⟩ })
      else .error (.errMsg "expected cluster element")

/-- The successor search of PacketReader.loadNextCluster: the first
catalog entry at the given position that has a successor. -/
def findNextCluster : List ClusterInfo → Nat → Option ClusterInfo
  | a :: b :: rest, position =>
    if a.Position = position then some b else findNextCluster (b :: rest) position
  | _, _ => none

/-- The after-loop tail of PacketReader.scanForClusters. -/
def scanEnd (p : ParserState) (pr : PacketReaderState) :
    Except MkvErr (ParserState × PacketReaderState) :=
  if pr.currentCluster = none then .error .eof else .ok (p, pr)

/-- The scanning loop of PacketReader.scanForClusters.  A discovered
cluster is appended to the catalog; the first one (when no current
cluster exists) is loaded immediately and scanning stops.  Non-cluster
elements are skipped by seeking past their declared extent. -/
def scanClustersLoop (endPos : Nat) :
    Nat → ParserState → PacketReaderState → Except MkvErr (ParserState × PacketReaderState)
  | 0, _, _ => .error (.errMsg "fuel")
  | fuel + 1, p, pr =>
    if p.pos < endPos then
      match ReadElement ⟨p.file, p.pos⟩ with
      | .error .eof => scanEnd p pr
      | .error e => .error e
      | .ok (element, r1) =>
        let p1 := { p with pos := r1.pos }
        if element.ID = ClusterID then
          let cluster := parseClusterInfo element
          let p2 := { p1 with clusters := p1.clusters ++ [cluster] }
          if pr.currentCluster = none then
            loadClusterData p2 { pr with currentCluster := some cluster }
          else scanClustersLoop endPos fuel p2 pr
        else
          let p2 := if p1.pos < endPos then
              { p1 with pos := (element.Offset + element.HeaderSize + element.Size) % 2 ^ 64 }
            else p1
          scanClustersLoop endPos fuel p2 pr
    else scanEnd p pr

/-- PacketReader.scanForClusters. -/
def scanForClusters (p : ParserState) (pr : PacketReaderState) :
    Except MkvErr (ParserState × PacketReaderState) :=
  scanClustersLoop ((p.segmentPos + p.segmentSize) % 2 ^ 64) (p.file.length + 2)
    { p with pos := p.segmentPos } pr

/-- PacketReader.loadNextCluster. -/
def loadNextCluster (p : ParserState) (pr : PacketReaderState) :
    Except MkvErr (ParserState × PacketReaderState) :=
  match p.clusters with
  | [] => scanForClusters p pr
  | c0 :: _ =>
    match pr.currentCluster with
    | none => loadClusterData p { pr with currentCluster := some c0 }
    | some cc =>
      match findNextCluster p.clusters cc.Position with
      | some nxt => loadClusterData p { pr with currentCluster := some nxt }
      | none => .error .eof

/-- PacketReader.readPacketFromCluster: walk the children of the loaded
cluster; a Timecode child updates the cluster base time in place, a
SimpleBlock or BlockGroup produces the result.  The possibly mutated
state is returned alongside the value-or-error, since Go mutations
survive an eof return. -/
def readPacketFromCluster (mask : Nat) :
    Nat → PacketReaderState → PacketReaderState × Except MkvErr (Option Packet)
  | 0, pr => (pr, .error (.errMsg "fuel"))
  | fuel + 1, pr =>
    match pr.clusterReader with
    | none => (pr, .error (.errMsg "nil cluster reader"))
    | some r =>
      if r.pos < pr.clusterData.length then
        match ReadElement r with
        | .error e => (pr, .error e)
        | .ok (element, r1) =>
          let pr1 := { pr with clusterReader := some r1 }
          if element.ID = TimecodeID then
            match element.ReadUint with
            | .error e => (pr1, .error e)
            | .ok tc =>
              match pr1.currentCluster with
              | none => (pr1, .error (.errMsg "nil current cluster"))
              | some cc =>
                readPacketFromCluster mask fuel
                  { pr1 with currentCluster := some { cc with Timecode := tc } }
          else if element.ID = SimpleBlockID then
            match pr1.currentCluster with
            | none => (pr1, .error (.errMsg "nil current cluster"))
            | some cc => (pr1, parseSimpleBlock cc.Timecode element mask)
          else if element.ID = BlockGroupID then
            match pr1.currentCluster with
            | none => (pr1, .error (.errMsg "nil current cluster"))
            | some cc => (pr1, parseBlockGroup cc.Timecode element mask)
          else readPacketFromCluster mask fuel pr1
      else (pr, .error .eof)

/-- PacketReader.ReadPacketWithMask: load clusters as needed and read
until a packet survives the mask; cluster exhaustion (eof) moves on to
the next cluster. -/
def ReadPacketWithMask (mask : Nat) :
    Nat → ParserState → PacketReaderState →
    Except MkvErr (ParserState × PacketReaderState × Packet)
  | 0, _, _ => .error (.errMsg "fuel")
  | fuel + 1, p, pr =>
    match (if pr.clusterReader = none then loadNextCluster p pr else .ok (p, pr)) with
    | .error e => .error e
    | .ok (p1, pr1) =>
      match readPacketFromCluster mask (pr1.clusterData.length + 1) pr1 with
      | (pr2, .error .eof) =>
        ReadPacketWithMask mask fuel p1 { pr2 with clusterReader := none }
      | (_, .error e) => .error e
      | (pr2, .ok (some packet)) => .ok (p1, pr2, packet)
      | (pr2, .ok none) => ReadPacketWithMask mask fuel p1 pr2

/-- The best-cue fold of PacketReader.seekWithCues: among the cues whose
time is at most the target, keep the first one with the greatest time. -/
def bestCueGo : List Cue → Option Cue → Nat → Option Cue
  | [], best, _ => best
  | c :: rest, best, timecode =>
    bestCueGo rest
      (if c.Time ≤ timecode then
        match best with
        | none => some c
        | some b => if b.Time < c.Time then some c else some b
      else best) timecode

/-- The cue selected by seekWithCues: the best-cue fold result, or the
first cue when no cue time is at most the target. -/
def chosenCue (cues : List Cue) (timecode : Nat) : Option Cue :=
  match bestCueGo cues none timecode with
  | some b => some b
  | none => cues.head?

/-- PacketReader.seekWithCues: select a cue, locate the cluster at the
segment-relative position it names (reusing a catalog entry when one
matches), and load it. -/
def seekWithCues (p : ParserState) (pr : PacketReaderState) (timecode flags : Nat) :
    Except MkvErr (ParserState × PacketReaderState) :=
  match p.cues with
  | [] => .error (.errMsg "index out of range")
  | c0 :: _ =>
    let bestCue := match bestCueGo p.cues none timecode with
      | some b => b
      | none => c0
    let clusterPos := (p.segmentPos + bestCue.Position) % 2 ^ 64
    match p.clusters.find? (fun cl => cl.Position == clusterPos) with
    | some cl => loadClusterData p { pr with currentCluster := some cl }
    | none =>
      match ReadElement ⟨p.file, clusterPos⟩ with
      | .error e => .error e
      | .ok (element, r1) =>
        if element.ID = ClusterID then
          loadClusterData { p with pos := r1.pos }
            { pr with currentCluster := some (parseClusterInfo element) }
        else .error (.errMsg "expected cluster at cue position")

/-- The scanning loop of PacketReader.seekLinear.  Each cluster header is
decoded with parseClusterInfo and its (never populated) Timecode field
is compared against the target. -/
def seekLinearLoop (timecode endPos : Nat) :
    Nat → ParserState → PacketReaderState → Except MkvErr (ParserState × PacketReaderState)
  | 0, _, _ => .error (.errMsg "fuel")
  | fuel + 1, p, pr =>
    if p.pos < endPos then
      match ReadElement ⟨p.file, p.pos⟩ with
      | .error .eof => .error (.errMsg "timecode not found")
      | .error e => .error e
      | .ok (element, r1) =>
        let p1 := { p with pos := r1.pos }
        if element.ID = ClusterID ∧ timecode ≤ (parseClusterInfo element).Timecode then
          loadClusterData p1 { pr with currentCluster := some (parseClusterInfo element) }
        else
          let p2 := if p1.pos < endPos then
              { p1 with pos := (element.Offset + element.HeaderSize + element.Size) % 2 ^ 64 }
            else p1
          seekLinearLoop timecode endPos fuel p2 pr
    else .error (.errMsg "timecode not found")

/-- PacketReader.seekLinear. -/
def seekLinear (p : ParserState) (pr : PacketReaderState) (timecode flags : Nat) :
    Except MkvErr (ParserState × PacketReaderState) :=
  seekLinearLoop timecode ((p.segmentPos + p.segmentSize) % 2 ^ 64) (p.file.length + 2)
    { p with pos := p.segmentPos } pr

/-- PacketReader.Seek: reset iteration state, then use the cue index if
any cues were parsed, else the linear scan. -/
def PRSeek (p : ParserState) (pr : PacketReaderState) (timecode flags : Nat) :
    Except MkvErr (ParserState × PacketReaderState) :=
  let pr1 := { pr with currentCluster := none, clusterReader := none }
  if 0 < p.cues.length then seekWithCues p pr1 timecode flags
  else seekLinear p pr1 timecode flags

/-- PacketReader.SkipToKeyframe: read packets with the stored mask until
one carries the KF bit. -/
def SkipToKeyframePR :
    Nat → ParserState → PacketReaderState → Except MkvErr (ParserState × PacketReaderState)
  | 0, _, _ => .error (.errMsg "fuel")
  | fuel + 1, p, pr =>
    match ReadPacketWithMask pr.trackMask (fuel + 1) p pr with
    | .error e => .error e
    | .ok (p1, pr1, packet) =>
      if packet.Flags &&& KF ≠ 0 then .ok (p1, pr1)
      else SkipToKeyframePR fuel p1 pr1

/-! The segment and metadata parser, from matroska.go. -/

/-- The Go pattern: copy src over the front of a 16-byte array when it
fits, keeping the remaining bytes. -/
def copyUID16 (dst src : List Byte) : List Byte :=
  if src.length ≤ 16 then (src ++ dst.drop src.length).take 16 else dst

/-- The bytes of the string matroska. -/
def matroskaBytes : List Byte := [109, 97, 116, 114, 111, 115, 107, 97]

/-- The bytes of the string webm. -/
def webmBytes : List Byte := [119, 101, 98, 109]

/-- The bytes of the string eng. -/
def engBytes : List Byte := [101, 110, 103]

/-- The bytes of the string und. -/
def undBytes : List Byte := [117, 110, 100]

/-- The raw bit pattern of the float64 value 1.0 (the Go initializer of
TrackInfo.TimecodeScale). -/
def float64OneBits : Nat := 0x3FF0000000000000

/-- The child dispatch of Parser.parseSegmentInfo. -/
def segmentInfoStep (info : SegmentInfo) (child : EBMLElement) :
    Except MkvErr SegmentInfo :=
  if child.ID = TimecodeScaleID then
    match child.ReadUint with
    | .error e => .error e
    | .ok v => .ok { info with TimecodeScale := v }
  else if child.ID = DurationID then
    match child.ReadFloat with
    | .error e => .error e
    | .ok v => .ok { info with Duration := v }
  else if child.ID = DateUTCID then
    match child.ReadInt with
    | .error e => .error e
    | .ok v => .ok { info with DateUTC := v, DateUTCValid := true }
  else if child.ID = TitleID then .ok { info with Title := child.ReadStringB }
  else if child.ID = MuxingAppID then .ok { info with MuxingApp := child.ReadStringB }
  else if child.ID = WritingAppID then .ok { info with WritingApp := child.ReadStringB }
  else if child.ID = SegmentUIDID then
    .ok { info with UID := copyUID16 info.UID child.ReadStringB }
  else if child.ID = SegmentFilenameID then .ok { info with Filename := child.ReadStringB }
  else if child.ID = PrevUIDID then
    .ok { info with PrevUID := copyUID16 info.PrevUID child.ReadStringB }
  else if child.ID = PrevFilenameID then .ok { info with PrevFilename := child.ReadStringB }
  else if child.ID = NextUIDID then
    .ok { info with NextUID := copyUID16 info.NextUID child.ReadStringB }
  else if child.ID = NextFilenameID then .ok { info with NextFilename := child.ReadStringB }
  else .ok info

/-- Parser.parseSegmentInfo. -/
def parseSegmentInfo (p : ParserState) (element : EBMLElement) :
    Except MkvErr ParserState :=
  match parseChildren (element.Data.getD []) segmentInfoStep { TimecodeScale := 1000000 } with
  | .error e => .error e
  | .ok info => .ok { p with segmentInfo := some info }

/-- The child dispatch of Parser.parseMasteringMetadata (float payloads
kept as raw bit patterns). -/
def masteringStep (track : TrackInfo) (child : EBMLElement) : Except MkvErr TrackInfo :=
  let setM (f : MasteringMetadata → MasteringMetadata) : TrackInfo :=
    { track with Video :=
        { track.Video with Colour :=
            { track.Video.Colour with Mastering := f track.Video.Colour.Mastering } } }
  if child.ID = PrimaryRChromaticityXID then
    match child.ReadFloat with
    | .error e => .error e
    | .ok v => .ok (setM fun m => { m with PrimaryRChromaticityX := v })
  else if child.ID = PrimaryRChromaticityYID then
    match child.ReadFloat with
    | .error e => .error e
    | .ok v => .ok (setM fun m => { m with PrimaryRChromaticityY := v })
  else if child.ID = PrimaryGChromaticityXID then
    match child.ReadFloat with
    | .error e => .error e
    | .ok v => .ok (setM fun m => { m with PrimaryGChromaticityX := v })
  else if child.ID = PrimaryGChromaticityYID then
    match child.ReadFloat with
    | .error e => .error e
    | .ok v => .ok (setM fun m => { m with PrimaryGChromaticityY := v })
  else if child.ID = PrimaryBChromaticityXID then
    match child.ReadFloat with
    | .error e => .error e
    | .ok v => .ok (setM fun m => { m with PrimaryBChromaticityX := v })
  else if child.ID = PrimaryBChromaticityYID then
    match child.ReadFloat with
    | .error e => .error e
    | .ok v => .ok (setM fun m => { m with PrimaryBChromaticityY := v })
  else if child.ID = WhitePointChromaticityXID then
    match child.ReadFloat with
    | .error e => .error e
    | .ok v => .ok (setM fun m => { m with WhitePointChromaticityX := v })
  else if child.ID = WhitePointChromaticityYID then
    match child.ReadFloat with
    | .error e => .error e
    | .ok v => .ok (setM fun m => { m with WhitePointChromaticityY := v })
  else if child.ID = LuminanceMaxID then
    match child.ReadFloat with
    | .error e => .error e
    | .ok v => .ok (setM fun m => { m with LuminanceMax := v })
  else if child.ID = LuminanceMinID then
    match child.ReadFloat with
    | .error e => .error e
    | .ok v => .ok (setM fun m => { m with LuminanceMin := v })
  else .ok track

/-- Parser.parseMasteringMetadata. -/
def parseMasteringMetadata (element : EBMLElement) (track : TrackInfo) :
    Except MkvErr TrackInfo :=
  parseChildren (element.Data.getD []) masteringStep track

/-- The child dispatch of Parser.parseColorInfo. -/
def colorStep (track : TrackInfo) (child : EBMLElement) : Except MkvErr TrackInfo :=
  let setC (f : ColourInfo → ColourInfo) : TrackInfo :=
    { track with Video := { track.Video with Colour := f track.Video.Colour } }
  if child.ID = MatrixCoefficientsID then
    match child.ReadUint with
    | .error e => .error e
    | .ok v => .ok (setC fun c => { c with MatrixCoefficients := v % 2 ^ 32 })
  else if child.ID = BitsPerChannelID then
    match child.ReadUint with
    | .error e => .error e
    | .ok v => .ok (setC fun c => { c with BitsPerChannel := v % 2 ^ 32 })
  else if child.ID = ChromaSubsamplingHorzID then
    match child.ReadUint with
    | .error e => .error e
    | .ok v => .ok (setC fun c => { c with ChromaSubsamplingHorz := v % 2 ^ 32 })
  else if child.ID = ChromaSubsamplingVertID then
    match child.ReadUint with
    | .error e => .error e
    | .ok v => .ok (setC fun c => { c with ChromaSubsamplingVert := v % 2 ^ 32 })
  else if child.ID = CbSubsamplingHorzID then
    match child.ReadUint with
    | .error e => .error e
    | .ok v => .ok (setC fun c => { c with CbSubsamplingHorz := v % 2 ^ 32 })
  else if child.ID = CbSubsamplingVertID then
    match child.ReadUint with
    | .error e => .error e
    | .ok v => .ok (setC fun c => { c with CbSubsamplingVert := v % 2 ^ 32 })
  else if child.ID = ChromaSitingHorzID then
    match child.ReadUint with
    | .error e => .error e
    | .ok v => .ok (setC fun c => { c with ChromaSitingHorz := v % 2 ^ 32 })
  else if child.ID = ChromaSitingVertID then
    match child.ReadUint with
    | .error e => .error e
    | .ok v => .ok (setC fun c => { c with ChromaSitingVert := v % 2 ^ 32 })
  else if child.ID = RangeID then
    match child.ReadUint with
    | .error e => .error e
    | .ok v => .ok (setC fun c => { c with Range := v % 2 ^ 32 })
  else if child.ID = TransferCharacteristicsID then
    match child.ReadUint with
    | .error e => .error e
    | .ok v => .ok (setC fun c => { c with TransferCharacteristics := v % 2 ^ 32 })
  else if child.ID = PrimariesID then
    match child.ReadUint with
    | .error e => .error e
    | .ok v => .ok (setC fun c => { c with Primaries := v % 2 ^ 32 })
  else if child.ID = MaxCLLID then
    match child.ReadUint with
    | .error e => .error e
    | .ok v => .ok (setC fun c => { c with MaxCLL := v % 2 ^ 32 })
  else if child.ID = MaxFALLID then
    match child.ReadUint with
    | .error e => .error e
    | .ok v => .ok (setC fun c => { c with MaxFALL := v % 2 ^ 32 })
  else if child.ID = MasteringMetadataID then parseMasteringMetadata child track
  else .ok track

/-- Parser.parseColorInfo. -/
def parseColorInfo (element : EBMLElement) (track : TrackInfo) :
    Except MkvErr TrackInfo :=
  parseChildren (element.Data.getD []) colorStep track

/-- The child dispatch of Parser.parseVideoInfo. -/
def videoStep (track : TrackInfo) (child : EBMLElement) : Except MkvErr TrackInfo :=
  let setV (f : VideoInfo → VideoInfo) : TrackInfo :=
    { track with Video := f track.Video }
  if child.ID = FlagInterlacedID then
    match child.ReadUint with
    | .error e => .error e
    | .ok v => .ok (setV fun vi => { vi with Interlaced := v ≠ 0 })
  else if child.ID = StereoModeID then
    match child.ReadUint with
    | .error e => .error e
    | .ok v => .ok (setV fun vi => { vi with StereoMode := v % 256 })
  else if child.ID = PixelWidthID then
    match child.ReadUint with
    | .error e => .error e
    | .ok v => .ok (setV fun vi => { vi with PixelWidth := v % 2 ^ 32 })
  else if child.ID = PixelHeightID then
    match child.ReadUint with
    | .error e => .error e
    | .ok v => .ok (setV fun vi => { vi with PixelHeight := v % 2 ^ 32 })
  else if child.ID = DisplayWidthID then
    match child.ReadUint with
    | .error e => .error e
    | .ok v => .ok (setV fun vi => { vi with DisplayWidth := v % 2 ^ 32 })
  else if child.ID = DisplayHeightID then
    match child.ReadUint with
    | .error e => .error e
    | .ok v => .ok (setV fun vi => { vi with DisplayHeight := v % 2 ^ 32 })
  else if child.ID = DisplayUnitID then
    match child.ReadUint with
    | .error e => .error e
    | .ok v => .ok (setV fun vi => { vi with DisplayUnit := v % 256 })
  else if child.ID = AspectRatioTypeID then
    match child.ReadUint with
    | .error e => .error e
    | .ok v => .ok (setV fun vi => { vi with AspectRatioType := v % 256 })
  else if child.ID = PixelCropLeftID then
    match child.ReadUint with
    | .error e => .error e
    | .ok v => .ok (setV fun vi => { vi with CropL := v % 2 ^ 32 })
  else if child.ID = PixelCropTopID then
    match child.ReadUint with
    | .error e => .error e
    | .ok v => .ok (setV fun vi => { vi with CropT := v % 2 ^ 32 })
  else if child.ID = PixelCropRightID then
    match child.ReadUint with
    | .error e => .error e
    | .ok v => .ok (setV fun vi => { vi with CropR := v % 2 ^ 32 })
  else if child.ID = PixelCropBottomID then
    match child.ReadUint with
    | .error e => .error e
    | .ok v => .ok (setV fun vi => { vi with CropB := v % 2 ^ 32 })
  else if child.ID = ColourSpaceID then
    match child.ReadUint with
    | .error e => .error e
    | .ok v => .ok (setV fun vi => { vi with ColourSpace := v % 2 ^ 32 })
  else if child.ID = GammaValueID then
    match child.ReadFloat with
    | .error e => .error e
    | .ok v => .ok (setV fun vi => { vi with GammaValue := v })
  else if child.ID = ColorID then parseColorInfo child track
  else .ok track

/-- Parser.parseVideoInfo, including the display-size defaults applied
after the child loop. -/
def parseVideoInfo (element : EBMLElement) (track : TrackInfo) :
    Except MkvErr TrackInfo :=
  match parseChildren (element.Data.getD []) videoStep track with
  | .error e => .error e
  | .ok t1 =>
    let t2 := if t1.Video.DisplayWidth = 0 then
        { t1 with Video := { t1.Video with DisplayWidth := t1.Video.PixelWidth } }
      else t1
    let t3 := if t2.Video.DisplayHeight = 0 then
        { t2 with Video := { t2.Video with DisplayHeight := t2.Video.PixelHeight } }
      else t2
    .ok t3

/-- The child dispatch of Parser.parseAudioInfo. -/
def audioStep (track : TrackInfo) (child : EBMLElement) : Except MkvErr TrackInfo :=
  let setA (f : AudioInfo → AudioInfo) : TrackInfo :=
    { track with AudioRec := f track.AudioRec }
  if child.ID = SamplingFrequencyID then
    match child.ReadFloat with
    | .error e => .error e
    | .ok v => .ok (setA fun a => { a with SamplingFreq := v })
  else if child.ID = OutputSamplingFrequencyID then
    match child.ReadFloat with
    | .error e => .error e
    | .ok v => .ok (setA fun a => { a with OutputSamplingFreq := v })
  else if child.ID = ChannelsID then
    match child.ReadUint with
    | .error e => .error e
    | .ok v => .ok (setA fun a => { a with Channels := v % 256 })
  else if child.ID = BitDepthID then
    match child.ReadUint with
    | .error e => .error e
    | .ok v => .ok (setA fun a => { a with BitDepth := v % 256 })
  else .ok track

/-- Parser.parseAudioInfo: channels default to 1 before the child loop,
and the output sampling frequency defaults to the input one after it. -/
def parseAudioInfo (element : EBMLElement) (track : TrackInfo) :
    Except MkvErr TrackInfo :=
  let track0 := { track with AudioRec := { track.AudioRec with Channels := 1 } }
  match parseChildren (element.Data.getD []) audioStep track0 with
  | .error e => .error e
  | .ok t1 =>
    .ok (if t1.AudioRec.OutputSamplingFreq = 0 then
          { t1 with AudioRec := { t1.AudioRec with OutputSamplingFreq := t1.AudioRec.SamplingFreq } }
        else t1)

/-- The child dispatch of Parser.parseContentCompression. -/
def contentCompressionStep (track : TrackInfo) (child : EBMLElement) :
    Except MkvErr TrackInfo :=
  if child.ID = ContentCompAlgoID then
    match child.ReadUint with
    | .error e => .error e
    | .ok v => .ok { track with CompMethod := v % 2 ^ 32, CompEnabled := true }
  else if child.ID = ContentCompSettingsID then
    .ok { track with CompMethodPrivate := child.ReadStringB }
  else .ok track

/-- Parser.parseContentCompression. -/
def parseContentCompression (element : EBMLElement) (track : TrackInfo) :
    Except MkvErr TrackInfo :=
  parseChildren (element.Data.getD []) contentCompressionStep track

/-- Parser.parseContentEncoding: only the compression sub-tree is
examined. -/
def parseContentEncoding (element : EBMLElement) (track : TrackInfo) :
    Except MkvErr TrackInfo :=
  parseChildren (element.Data.getD [])
    (fun t child => if child.ID = ContentCompressionID then parseContentCompression child t
                    else .ok t) track

/-- Parser.parseContentEncodings. -/
def parseContentEncodings (element : EBMLElement) (track : TrackInfo) :
    Except MkvErr TrackInfo :=
  parseChildren (element.Data.getD [])
    (fun t child => if child.ID = ContentEncodingID then parseContentEncoding child t
                    else .ok t) track

/-- The child dispatch of Parser.parseTrackEntry. -/
def trackEntryStep (track : TrackInfo) (child : EBMLElement) : Except MkvErr TrackInfo :=
  if child.ID = TrackNumberID then
    match child.ReadUint with
    | .error e => .error e
    | .ok v => .ok { track with Number := v % 256 }
  else if child.ID = TrackUIDID then
    match child.ReadUint with
    | .error e => .error e
    | .ok v => .ok { track with UID := v }
  else if child.ID = TrackTypeID then
    match child.ReadUint with
    | .error e => .error e
    | .ok v => .ok { track with TrackType := v % 256 }
  else if child.ID = FlagEnabledID then
    match child.ReadUint with
    | .error e => .error e
    | .ok v => .ok { track with Enabled := v ≠ 0 }
  else if child.ID = FlagDefaultID then
    match child.ReadUint with
    | .error e => .error e
    | .ok v => .ok { track with Default := v ≠ 0 }
  else if child.ID = FlagForcedID then
    match child.ReadUint with
    | .error e => .error e
    | .ok v => .ok { track with Forced := v ≠ 0 }
  else if child.ID = FlagLacingID then
    match child.ReadUint with
    | .error e => .error e
    | .ok v => .ok { track with Lacing := v ≠ 0 }
  else if child.ID = MinCacheID then
    match child.ReadUint with
    | .error e => .error e
    | .ok v => .ok { track with MinCache := v }
  else if child.ID = MaxCacheID then
    match child.ReadUint with
    | .error e => .error e
    | .ok v => .ok { track with MaxCache := v }
  else if child.ID = DefaultDurationID then
    match child.ReadUint with
    | .error e => .error e
    | .ok v => .ok { track with DefaultDuration := v }
  else if child.ID = CodecDelayID then
    match child.ReadUint with
    | .error e => .error e
    | .ok v => .ok { track with CodecDelay := v }
  else if child.ID = SeekPreRollID then
    match child.ReadUint with
    | .error e => .error e
    | .ok v => .ok { track with SeekPreRoll := v }
  else if child.ID = TrackTimecodeScaleID then
    match child.ReadFloat with
    | .error e => .error e
    | .ok v => .ok { track with TimecodeScale := v }
  else if child.ID = MaxBlockAdditionIDID then
    match child.ReadUint with
    | .error e => .error e
    | .ok v => .ok { track with MaxBlockAdditionID := v % 2 ^ 32 }
  else if child.ID = NameID then .ok { track with Name := child.ReadStringB }
  else if child.ID = LanguageID then
    let lang := child.ReadStringB
    .ok { track with Language := if 3 ≤ lang.length then lang.take 3 else lang }
  else if child.ID = CodecIDID then .ok { track with CodecID := child.ReadStringB }
  else if child.ID = CodecPrivateID then .ok { track with CodecPrivate := child.ReadStringB }
  else if child.ID = VideoID then parseVideoInfo child track
  else if child.ID = AudioID then parseAudioInfo child track
  else if child.ID = ContentEncodingsID then parseContentEncodings child track
  else .ok track

/-- Parser.parseTrackEntry, with the Go initializer (enabled, lacing,
language eng, timecode scale 1.0). -/
def parseTrackEntry (element : EBMLElement) : Except MkvErr TrackInfo :=
  parseChildren (element.Data.getD []) trackEntryStep
    { Enabled := true, Lacing := true, Language := engBytes,
      TimecodeScale := float64OneBits }

/-- Parser.parseTracks. -/
def parseTracks (p : ParserState) (element : EBMLElement) : Except MkvErr ParserState :=
  parseChildren (element.Data.getD [])
    (fun q child =>
      if child.ID = TrackEntryID then
        match parseTrackEntry child with
        | .error e => .error e
        | .ok tr => .ok { q with tracks := q.tracks ++ [tr] }
      else .ok q) p

/-- The child dispatch of Parser.parseAttachedFile. -/
def attachedFileStep (a : Attachment) (child : EBMLElement) : Except MkvErr Attachment :=
  if child.ID = FileNameID then .ok { a with Name := child.ReadStringB }
  else if child.ID = FileDescriptionID then .ok { a with Description := child.ReadStringB }
  else if child.ID = FileMimeTypeID then .ok { a with MimeType := child.ReadStringB }
  else if child.ID = FileUIDID then
    match child.ReadUint with
    | .error e => .error e
    | .ok v => .ok { a with UID := v }
  else if child.ID = FileDataID then
    .ok { a with Position := child.Offset, Length := (child.Data.getD []).length }
  else .ok a

/-- Parser.parseAttachedFile. -/
def parseAttachedFile (element : EBMLElement) : Except MkvErr Attachment :=
  parseChildren (element.Data.getD []) attachedFileStep
    { Position := element.Offset, Length := element.Size }

/-- Parser.parseAttachments. -/
def parseAttachments (p : ParserState) (element : EBMLElement) : Except MkvErr ParserState :=
  parseChildren (element.Data.getD [])
    (fun q child =>
      if child.ID = AttachedFileID then
        match parseAttachedFile child with
        | .error e => .error e
        | .ok a => .ok { q with attachments := q.attachments ++ [a] }
      else .ok q) p

/-- The child dispatch of Parser.parseChapterDisplay. -/
def chapterDisplayStep (d : ChapterDisplay) (child : EBMLElement) :
    Except MkvErr ChapterDisplay :=
  if child.ID = ChapStringID then .ok { d with DisplayString := child.ReadStringB }
  else if child.ID = ChapLanguageID then
    let lang := child.ReadStringB
    .ok { d with Language := if 3 ≤ lang.length then lang.take 3 else lang }
  else if child.ID = ChapCountryID then
    let country := child.ReadStringB
    .ok { d with Country := if 3 ≤ country.length then country.take 3 else country }
  else .ok d

/-- Parser.parseChapterDisplay. -/
def parseChapterDisplay (element : EBMLElement) : Except MkvErr ChapterDisplay :=
  parseChildren (element.Data.getD []) chapterDisplayStep {}

/-- The child dispatch of Parser.parseChapterCommand. -/
def chapterCommandStep (c : ChapterCommand) (child : EBMLElement) :
    Except MkvErr ChapterCommand :=
  if child.ID = ChapterProcessTimeID then
    match child.ReadUint with
    | .error e => .error e
    | .ok v => .ok { c with Time := v % 2 ^ 32 }
  else if child.ID = ChapterProcessDataID then .ok { c with Command := child.ReadStringB }
  else .ok c

/-- Parser.parseChapterCommand. -/
def parseChapterCommand (element : EBMLElement) : Except MkvErr ChapterCommand :=
  parseChildren (element.Data.getD []) chapterCommandStep {}

/-- The child dispatch of Parser.parseChapterProcess. -/
def chapterProcessStep (pr : ChapterProcess) (child : EBMLElement) :
    Except MkvErr ChapterProcess :=
  if child.ID = ChapterProcessCodecIDID then
    match child.ReadUint with
    | .error e => .error e
    | .ok v => .ok { pr with CodecID := v % 2 ^ 32 }
  else if child.ID = ChapterProcessPrivateID then
    .ok { pr with CodecPrivate := child.ReadStringB }
  else if child.ID = ChapterProcessCommandID then
    match parseChapterCommand child with
    | .error e => .error e
    | .ok c => .ok { pr with Commands := pr.Commands ++ [c] }
  else .ok pr

/-- Parser.parseChapterProcess. -/
def parseChapterProcess (element : EBMLElement) : Except MkvErr ChapterProcess :=
  parseChildren (element.Data.getD []) chapterProcessStep {}

/-- The child dispatch of Parser.parseChapterAtom, parameterized by the
recursive call for nested chapter atoms. -/
def chapterAtomStep (recAtom : EBMLElement → Except MkvErr Chapter)
    (ch : Chapter) (child : EBMLElement) : Except MkvErr Chapter :=
  if child.ID = ChapterUIDID then
    match child.ReadUint with
    | .error e => .error e
    | .ok v => .ok { ch with UID := v }
  else if child.ID = ChapterTimeStartID then
    match child.ReadUint with
    | .error e => .error e
    | .ok v => .ok { ch with Start := v }
  else if child.ID = ChapterTimeEndID then
    match child.ReadUint with
    | .error e => .error e
    | .ok v => .ok { ch with End := v }
  else if child.ID = ChapterFlagHiddenID then
    match child.ReadUint with
    | .error e => .error e
    | .ok v => .ok { ch with Hidden := v ≠ 0 }
  else if child.ID = ChapterFlagEnabledID then
    match child.ReadUint with
    | .error e => .error e
    | .ok v => .ok { ch with Enabled := v ≠ 0 }
  else if child.ID = ChapterSegmentUIDID then
    .ok { ch with SegmentUID := copyUID16 ch.SegmentUID child.ReadStringB }
  else if child.ID = ChapterDisplayID then
    match parseChapterDisplay child with
    | .error e => .error e
    | .ok d => .ok { ch with Display := ch.Display ++ [d] }
  else if child.ID = ChapterAtomID then
    match recAtom child with
    | .error e => .error e
    | .ok c => .ok { ch with Children := ch.Children ++ [c] }
  else if child.ID = ChapterProcessID then
    match parseChapterProcess child with
    | .error e => .error e
    | .ok pr => .ok { ch with Process := ch.Process ++ [pr] }
  else .ok ch

/-- Parser.parseChapterAtom.  The fuel bounds the nesting depth; each
nested atom payload is strictly shorter than its parent payload, so the
fuel chosen by parseEditionEntry always suffices. -/
def parseChapterAtom : Nat → EBMLElement → Except MkvErr Chapter
  | 0, _ => .error (.errMsg "fuel")
  | fuel + 1, element =>
    parseChildren (element.Data.getD []) (chapterAtomStep (parseChapterAtom fuel))
      { UID := 0, Start := 0, End := 0, Hidden := false, Enabled := true,
        SegmentUID := List.replicate 16 0, Tracks := [], Display := [],
        Children := [], Process := [] }

/-- Parser.parseEditionEntry. -/
def parseEditionEntry (element : EBMLElement) : Except MkvErr (List Chapter) :=
  parseChildren (element.Data.getD [])
    (fun acc child =>
      if child.ID = ChapterAtomID then
        match parseChapterAtom ((child.Data.getD []).length + 1) child with
        | .error e => .error e
        | .ok c => .ok (acc ++ [c])
      else .ok acc) []

/-- Parser.parseChapters. -/
def parseChapters (p : ParserState) (element : EBMLElement) : Except MkvErr ParserState :=
  parseChildren (element.Data.getD [])
    (fun q child =>
      if child.ID = EditionEntryID then
        match parseEditionEntry child with
        | .error e => .error e
        | .ok cs => .ok { q with chapters := q.chapters ++ cs }
      else .ok q) p

/-- The child dispatch of Parser.parseTargets: a single Target record is
accumulated and returned as a one-element list. -/
def targetsStep (t : Target) (child : EBMLElement) : Except MkvErr Target :=
  if child.ID = TargetTypeValueID then
    match child.ReadUint with
    | .error e => .error e
    | .ok v => .ok { t with TargetType := v % 2 ^ 32 }
  else if child.ID = TagTrackUIDID then
    match child.ReadUint with
    | .error e => .error e
    | .ok v => .ok { t with UID := v }
  else .ok t

/-- Parser.parseTargets. -/
def parseTargets (element : EBMLElement) : Except MkvErr (List Target) :=
  match parseChildren (element.Data.getD []) targetsStep {} with
  | .error e => .error e
  | .ok t => .ok [t]

/-- The child dispatch of Parser.parseSimpleTag. -/
def simpleTagStep (st : SimpleTag) (child : EBMLElement) : Except MkvErr SimpleTag :=
  if child.ID = TagNameID then .ok { st with Name := child.ReadStringB }
  else if child.ID = TagStringID then .ok { st with Value := child.ReadStringB }
  else if child.ID = TagLanguageID then
    let lang := child.ReadStringB
    .ok { st with Language := if 3 ≤ lang.length then lang.take 3 else lang }
  else if child.ID = TagDefaultID then
    match child.ReadUint with
    | .error e => .error e
    | .ok v => .ok { st with Default := v ≠ 0 }
  else .ok st

/-- Parser.parseSimpleTag, with the und language default. -/
def parseSimpleTag (element : EBMLElement) : Except MkvErr SimpleTag :=
  parseChildren (element.Data.getD []) simpleTagStep { Language := undBytes }

/-- The child dispatch of Parser.parseTag. -/
def tagStep (t : Tag) (child : EBMLElement) : Except MkvErr Tag :=
  if child.ID = TargetsID then
    match parseTargets child with
    | .error e => .error e
    | .ok ts => .ok { t with Targets := t.Targets ++ ts }
  else if child.ID = SimpleTagID then
    match parseSimpleTag child with
    | .error e => .error e
    | .ok st => .ok { t with SimpleTags := t.SimpleTags ++ [st] }
  else .ok t

/-- Parser.parseTag. -/
def parseTag (element : EBMLElement) : Except MkvErr Tag :=
  parseChildren (element.Data.getD []) tagStep {}

/-- Parser.parseTags. -/
def parseTags (p : ParserState) (element : EBMLElement) : Except MkvErr ParserState :=
  parseChildren (element.Data.getD [])
    (fun q child =>
      if child.ID = TagID then
        match parseTag child with
        | .error e => .error e
        | .ok t => .ok { q with tags := q.tags ++ [t] }
      else .ok q) p

/-- The child dispatch of Parser.parseCueTrackPositions. -/
def cueTrackPositionsStep (cue : Cue) (child : EBMLElement) : Except MkvErr Cue :=
  if child.ID = CueTrackID then
    match child.ReadUint with
    | .error e => .error e
    | .ok v => .ok { cue with Track := v % 256 }
  else if child.ID = CueClusterPositionID then
    match child.ReadUint with
    | .error e => .error e
    | .ok v => .ok { cue with Position := v }
  else if child.ID = CueRelativePositionID then
    match child.ReadUint with
    | .error e => .error e
    | .ok v => .ok { cue with RelativePosition := v }
  else if child.ID = CueBlockNumberID then
    match child.ReadUint with
    | .error e => .error e
    | .ok v => .ok { cue with Block := v }
  else .ok cue

/-- Parser.parseCueTrackPositions. -/
def parseCueTrackPositions (element : EBMLElement) (cue : Cue) : Except MkvErr Cue :=
  parseChildren (element.Data.getD []) cueTrackPositionsStep cue

/-- The child dispatch of Parser.parseCuePoint. -/
def cuePointStep (cue : Cue) (child : EBMLElement) : Except MkvErr Cue :=
  if child.ID = CueTimeID then
    match child.ReadUint with
    | .error e => .error e
    | .ok v => .ok { cue with Time := v }
  else if child.ID = CueDurationID then
    match child.ReadUint with
    | .error e => .error e
    | .ok v => .ok { cue with Duration := v }
  else if child.ID = CueTrackPositionsID then parseCueTrackPositions child cue
  else .ok cue

/-- Parser.parseCuePoint. -/
def parseCuePoint (element : EBMLElement) : Except MkvErr Cue :=
  parseChildren (element.Data.getD []) cuePointStep {}

/-- Parser.parseCues. -/
def parseCues (p : ParserState) (element : EBMLElement) : Except MkvErr ParserState :=
  parseChildren (element.Data.getD [])
    (fun q child =>
      if child.ID = CuePointID then
        match parseCuePoint child with
        | .error e => .error e
        | .ok cue => .ok { q with cues := q.cues ++ [cue] }
      else .ok q) p

/-- Parser.parseElementAtPosition: seek to the referenced absolute
position, read the element there, require the expected id, dispatch to
the matching sub-parser, and restore the original cursor. -/
def parseElementAtPosition (p : ParserState) (elementID position : Nat) :
    Except MkvErr ParserState :=
  let originalPos := p.pos
  match ReadElement ⟨p.file, position⟩ with
  | .error e => .error e
  | .ok (element, r1) =>
    if element.ID = elementID then
      let p1 := { p with pos := r1.pos }
      let dispatched :=
        if elementID = SegmentInfoID then parseSegmentInfo p1 element
        else if elementID = TracksID then parseTracks p1 element
        else if elementID = CuesID then parseCues p1 element
        else if elementID = AttachmentsID then parseAttachments p1 element
        else if elementID = ChaptersID then parseChapters p1 element
        else if elementID = TagsID then parseTags p1 element
        else .ok p1
      match dispatched with
      | .error e => .error e
      | .ok p2 => .ok { p2 with pos := originalPos }
    else .error (.errMsg "expected element id mismatch")

/-- Parser.parseSeek: collect SeekID and SeekPosition from the children,
then, unless avoidSeeks is set or either value is zero, parse the
referenced element out of order at segmentPos + SeekPosition. -/
def parseSeek (p : ParserState) (element : EBMLElement) : Except MkvErr ParserState :=
  let collected := parseChildren (element.Data.getD [])
    (fun (acc : Nat × Nat) child =>
      if child.ID = SeekIDElementID then
        match child.ReadUint with
        | .error e => .error e
        | .ok v => .ok (v % 2 ^ 32, acc.2)
      else if child.ID = SeekPositionID then
        match child.ReadUint with
        | .error e => .error e
        | .ok v => .ok (acc.1, v)
      else .ok acc) (0, 0)
  match collected with
  | .error e => .error e
  | .ok (seekID, seekPosition) =>
    if ¬p.avoidSeeks ∧ seekID ≠ 0 ∧ seekPosition ≠ 0 then
      parseElementAtPosition p seekID ((p.segmentPos + seekPosition) % 2 ^ 64)
    else .ok p

/-- Parser.parseSeekHead. -/
def parseSeekHead (p : ParserState) (element : EBMLElement) : Except MkvErr ParserState :=
  parseChildren (element.Data.getD [])
    (fun q child => if child.ID = SeekID then parseSeek q child else .ok q) p

/-- The segment-body walk of Parser.parseSegment: dispatch each direct
child by id (with the per-sub-tree error wrapping of the Go code),
record clusters without decoding them, and skip unknown elements by
seeking past their declared extent. -/
def parseSegmentLoop (endPos : Nat) :
    Nat → ParserState → Except MkvErr ParserState
  | 0, _ => .error (.errMsg "fuel")
  | fuel + 1, p =>
    if p.pos < endPos then
      match ReadElement ⟨p.file, p.pos⟩ with
      | .error .eof => .ok p
      | .error e => .error e
      | .ok (element, r1) =>
        let p1 := { p with pos := r1.pos }
        if element.ID = SeekHeadID then
          match parseSeekHead p1 element with
          | .error e => .error (.wrap "SeekHead" e)
          | .ok p2 => parseSegmentLoop endPos fuel p2
        else if element.ID = SegmentInfoID then
          match parseSegmentInfo p1 element with
          | .error e => .error (.wrap "SegmentInfo" e)
          | .ok p2 => parseSegmentLoop endPos fuel p2
        else if element.ID = TracksID then
          match parseTracks p1 element with
          | .error e => .error (.wrap "Tracks" e)
          | .ok p2 => parseSegmentLoop endPos fuel p2
        else if element.ID = CuesID then
          match parseCues p1 element with
          | .error e => .error (.wrap "Cues" e)
          | .ok p2 => parseSegmentLoop endPos fuel p2
        else if element.ID = AttachmentsID then
          match parseAttachments p1 element with
          | .error e => .error (.wrap "Attachments" e)
          | .ok p2 => parseSegmentLoop endPos fuel p2
        else if element.ID = ChaptersID then
          match parseChapters p1 element with
          | .error e => .error (.wrap "Chapters" e)
          | .ok p2 => parseSegmentLoop endPos fuel p2
        else if element.ID = TagsID then
          match parseTags p1 element with
          | .error e => .error (.wrap "Tags" e)
          | .ok p2 => parseSegmentLoop endPos fuel p2
        else if element.ID = ClusterID then
          let p2 := { p1 with clusters := p1.clusters ++ [parseClusterInfo element] }
          let p3 := if p2.pos < endPos then
              { p2 with pos := (element.Offset + element.HeaderSize + element.Size) % 2 ^ 64 }
            else p2
          parseSegmentLoop endPos fuel p3
        else
          let p2 := if p1.pos < endPos then
              { p1 with pos := (element.Offset + element.HeaderSize + element.Size) % 2 ^ 64 }
            else p1
          parseSegmentLoop endPos fuel p2
    else .ok p

/-- Parser.parseSegment: walk the segment body, then restore the
original cursor unless avoidSeeks is set (the deferred restore; on the
error path the restore is unobservable because the whole open fails). -/
def parseSegment (p : ParserState) : Except MkvErr ParserState :=
  let originalPos := p.pos
  match parseSegmentLoop ((p.segmentPos + p.segmentSize) % 2 ^ 64) (p.file.length + 2)
      { p with pos := p.segmentPos } with
  | .error e => .error e
  | .ok p1 => .ok (if p1.avoidSeeks then p1 else { p1 with pos := originalPos })

/-- validateEBMLHeader: parse the header children, read DocType and
DocTypeVersion (the Go code discards the ReadUint error, so a failed
read leaves the zero value), and require a known document type of
version at least 1. -/
def validateEBMLHeader (header : EBMLElement) : Except MkvErr Unit :=
  match ParseEBMLChildren (header.Data.getD []) with
  | .error e => .error e
  | .ok children =>
    let docType := children.foldl
      (fun dt c => if c.ID = DocTypeID then c.ReadStringB else dt) ([] : List Byte)
    let docTypeVersion := children.foldl
      (fun v c => if c.ID = DocTypeVersionID then
          (match c.ReadUint with | .ok u => u | .error _ => 0)
        else v) (1 : Nat)
    if docType ≠ matroskaBytes ∧ docType ≠ webmBytes then
      .error (.errMsg "unsupported document type")
    else if docTypeVersion < 1 then .error (.errMsg "unsupported document version")
    else .ok ()

/-- NewParser: read and validate the EBML header, read the Segment
envelope, then run the segment parse once.  The parser is created with
avoidSeeks false. -/
def NewParser (file : List Byte) : Except MkvErr ParserState :=
  match ReadElement ⟨file, 0⟩ with
  | .error e => .error (.wrap "failed to read EBML header" e)
  | .ok (ebmlHeader, r1) =>
    if ebmlHeader.ID = EBMLHeaderID then
      match validateEBMLHeader ebmlHeader with
      | .error e => .error (.wrap "invalid EBML header" e)
      | .ok _ =>
        match ReadElement r1 with
        | .error e => .error (.wrap "failed to read segment" e)
        | .ok (segmentElement, r2) =>
          if segmentElement.ID = SegmentID then
            let p : ParserState :=
              { file := file, pos := r2.pos,
                segmentPos := segmentElement.Offset + segmentElement.HeaderSize,
                segmentSize := segmentElement.Size,
                segmentInfo := none, tracks := [], attachments := [], chapters := [],
                tags := [], cues := [], clusters := [], avoidSeeks := false }
            match parseSegment p with
            | .error e => .error (.wrap "failed to parse segment" e)
            | .ok p1 => .ok p1
          else .error (.errMsg "expected Segment element")
    else .error (.errMsg "not a valid EBML file")

/-- NewStreamingParser: run NewParser over the stream (the fakeSeeker
wrapper is a repository type outside src; modelled from the spec as a
seek-emulation adapter over the same byte sequence, so the Reader
semantics are unchanged), then set avoidSeeks.  Note that the flag is
set only after NewParser, and with it the whole open-time segment
parse, has already completed. -/
def NewStreamingParser (file : List Byte) : Except MkvErr ParserState :=
  match NewParser file with
  | .error e => .error e
  | .ok p => .ok { p with avoidSeeks := true }

/-! The demuxer facade, from the facade part of matroska.go. -/

/-- Demuxer state: the closed flag plus the owned parser and packet
reader, which Close sets to nil. -/
structure Demuxer where
  closed : Bool
  parser : Option ParserState
  packetReader : Option PacketReaderState

/-- Demuxer.Close: a no-op when already closed, otherwise mark closed and
drop the owned state. -/
def Demuxer.Close (d : Demuxer) : Demuxer :=
  if d.closed then d
  else { closed := true, parser := none, packetReader := none }

/-- Demuxer.GetNumTracks. -/
def Demuxer.GetNumTracks (d : Demuxer) : Except MkvErr Nat :=
  if d.closed then .error (.errMsg "demuxer is closed")
  else
    match d.parser with
    | none => .error (.errMsg "nil parser")
    | some p =>
      if p.tracks.length = 0 then .error (.errMsg "no tracks found")
      else .ok p.tracks.length

/-- Demuxer.GetTrackInfo (the Go deep copy is value-identical here). -/
def Demuxer.GetTrackInfo (d : Demuxer) (track : Nat) : Except MkvErr TrackInfo :=
  if d.closed then .error (.errMsg "demuxer is closed")
  else
    match d.parser with
    | none => .error (.errMsg "nil parser")
    | some p =>
      match p.tracks.get? track with
      | none => .error (.errMsg "track index out of range")
      | some t => .ok t

/-- Demuxer.GetFileInfo. -/
def Demuxer.GetFileInfo (d : Demuxer) : Except MkvErr SegmentInfo :=
  if d.closed then .error (.errMsg "demuxer is closed")
  else
    match d.parser with
    | none => .error (.errMsg "nil parser")
    | some p =>
      match p.segmentInfo with
      | none => .error (.errMsg "no segment info found")
      | some info => .ok info

/-- Demuxer.GetAttachments: an empty list, not an error, when closed. -/
def Demuxer.GetAttachments (d : Demuxer) : List Attachment :=
  if d.closed then []
  else
    match d.parser with
    | none => []
    | some p => p.attachments

/-- Demuxer.GetChapters: an empty list, not an error, when closed (the
recursive Go deep copy is value-identical here). -/
def Demuxer.GetChapters (d : Demuxer) : List Chapter :=
  if d.closed then []
  else
    match d.parser with
    | none => []
    | some p => p.chapters

/-- Demuxer.GetTags: an empty list, not an error, when closed. -/
def Demuxer.GetTags (d : Demuxer) : List Tag :=
  if d.closed then []
  else
    match d.parser with
    | none => []
    | some p => p.tags

/-- Demuxer.GetCues: an empty list, not an error, when closed. -/
def Demuxer.GetCues (d : Demuxer) : List Cue :=
  if d.closed then []
  else
    match d.parser with
    | none => []
    | some p => p.cues

/-- Demuxer.GetSegment: zero, not an error, when closed. -/
def Demuxer.GetSegment (d : Demuxer) : Nat :=
  if d.closed then 0
  else
    match d.parser with
    | none => 0
    | some p => p.segmentPos

/-- Demuxer.GetSegmentTop: zero, not an error, when closed. -/
def Demuxer.GetSegmentTop (d : Demuxer) : Nat :=
  if d.closed then 0
  else
    match d.parser with
    | none => 0
    | some p => (p.segmentPos + p.segmentSize) % 2 ^ 64

/-- Demuxer.GetCuesPos: zero when closed or when no cues exist. -/
def Demuxer.GetCuesPos (d : Demuxer) : Nat :=
  if d.closed then 0
  else
    match d.parser with
    | none => 0
    | some p =>
      match p.cues.head? with
      | none => 0
      | some c => c.Position

/-- Demuxer.GetCuesTopPos: zero when closed or when no cues exist. -/
def Demuxer.GetCuesTopPos (d : Demuxer) : Nat :=
  if d.closed then 0
  else
    match d.parser with
    | none => 0
    | some p =>
      match p.cues.getLast? with
      | none => 0
      | some c => (c.Position + c.Duration) % 2 ^ 64

/-- Demuxer.Seek: a silent no-op when closed; otherwise run the packet
reader seek, discarding its error (on a failed seek the Go code keeps
the partially mutated in-place state; the model keeps the reset
iteration state, which no verified claim observes). -/
def Demuxer.Seek (d : Demuxer) (timecode flags : Nat) : Demuxer :=
  if d.closed then d
  else
    match d.parser, d.packetReader with
    | some p, some pr =>
      match PRSeek p pr timecode flags with
      | .ok (p1, pr1) => { d with parser := some p1, packetReader := some pr1 }
      | .error _ =>
        let pr1 := { pr with currentCluster := none, clusterReader := none }
        { d with packetReader := some pr1 }
    | _, _ => d

/-- Demuxer.SeekCueAware: the Go body is identical to Seek. -/
def Demuxer.SeekCueAware (d : Demuxer) (timecode flags : Nat) : Demuxer :=
  Demuxer.Seek d timecode flags

/-- Demuxer.SkipToKeyframe: a silent no-op when closed. -/
def Demuxer.SkipToKeyframe (d : Demuxer) (fuel : Nat) : Demuxer :=
  if d.closed then d
  else
    match d.parser, d.packetReader with
    | some p, some pr =>
      match SkipToKeyframePR fuel p pr with
      | .ok (p1, pr1) => { d with parser := some p1, packetReader := some pr1 }
      | .error _ => d
    | _, _ => d

/-- Demuxer.GetLowestQTimecode: zero when closed. -/
def Demuxer.GetLowestQTimecode (d : Demuxer) : Nat :=
  if d.closed then 0
  else
    match d.packetReader with
    | none => 0
    | some pr => pr.lowestTimecode

/-- Demuxer.SetTrackMask: a silent no-op when closed. -/
def Demuxer.SetTrackMask (d : Demuxer) (mask : Nat) : Demuxer :=
  if d.closed then d
  else
    match d.packetReader with
    | some pr => { d with packetReader := some { pr with trackMask := mask } }
    | none => d

/-- Demuxer.ReadPacketMask. -/
def Demuxer.ReadPacketMask (d : Demuxer) (mask fuel : Nat) :
    Except MkvErr (Demuxer × Packet) :=
  if d.closed then .error (.errMsg "demuxer is closed")
  else
    match d.parser, d.packetReader with
    | some p, some pr =>
      match ReadPacketWithMask mask fuel p pr with
      | .error e => .error e
      | .ok (p1, pr1, packet) =>
        .ok ({ d with parser := some p1, packetReader := some pr1 }, packet)
    | _, _ => .error (.errMsg "nil parser")

/-- Demuxer.ReadPacket: ReadPacketWithMask with the stored track mask. -/
def Demuxer.ReadPacket (d : Demuxer) (fuel : Nat) : Except MkvErr (Demuxer × Packet) :=
  if d.closed then .error (.errMsg "demuxer is closed")
  else
    match d.parser, d.packetReader with
    | some p, some pr =>
      match ReadPacketWithMask pr.trackMask fuel p pr with
      | .error e => .error e
      | .ok (p1, pr1, packet) =>
        .ok ({ d with parser := some p1, packetReader := some pr1 }, packet)
    | _, _ => .error (.errMsg "nil parser")

/-! Observation helpers used by the theorem statements. -/

/-- The id of a successfully read element. -/
def elemIdOf (x : Except MkvErr (EBMLElement × Reader)) : Option Nat :=
  match x with
  | .ok (e, _) => some e.ID
  | .error _ => none

/-- The payload field of a successfully read element. -/
def elemDataOf (x : Except MkvErr (EBMLElement × Reader)) : Option (Option (List Byte)) :=
  match x with
  | .ok (e, _) => some e.Data
  | .error _ => none

/-- The declared size of a successfully read element. -/
def elemSizeOf (x : Except MkvErr (EBMLElement × Reader)) : Option Nat :=
  match x with
  | .ok (e, _) => some e.Size
  | .error _ => none

/-- The length of the buffered payload of a successfully read element. -/
def elemDataLenOf (x : Except MkvErr (EBMLElement × Reader)) : Option Nat :=
  match x with
  | .ok (e, _) => e.Data.map List.length
  | .error _ => none

/-- The position of the current cluster after a successful seek. -/
def currentClusterPosOf (x : Except MkvErr (ParserState × PacketReaderState)) : Option Nat :=
  match x with
  | .ok (_, pr) => pr.currentCluster.map (fun c => c.Position)
  | .error _ => none

/-- The buffered cluster payload after a successful packet read. -/
def clusterDataOf (x : Except MkvErr (ParserState × PacketReaderState × Packet)) :
    Option (List Byte) :=
  match x with
  | .ok (_, pr, _) => some pr.clusterData
  | .error _ => none

/-- The declared size of the first catalogued cluster after a successful
packet read. -/
def firstClusterSizeOf (x : Except MkvErr (ParserState × PacketReaderState × Packet)) :
    Option Nat :=
  match x with
  | .ok (p, _, _) => (p.clusters.head?).map (fun c => c.Size)
  | .error _ => none

/-- The packet returned by a successful packet read. -/
def packetReadOf (x : Except MkvErr (ParserState × PacketReaderState × Packet)) :
    Option Packet :=
  match x with
  | .ok (_, _, packet) => some packet
  | .error _ => none

/-- The optional packet of a successful block parse. -/
def packetOf (x : Except MkvErr (Option Packet)) : Option Packet :=
  match x with
  | .ok op => op
  | .error _ => none

/-- The number of parsed cues of a successfully opened parser. -/
def cuesLenOf (x : Except MkvErr ParserState) : Option Nat :=
  match x with
  | .ok p => some p.cues.length
  | .error _ => none

/-- The avoidSeeks flag of a successfully opened parser. -/
def avoidSeeksOf (x : Except MkvErr ParserState) : Option Bool :=
  match x with
  | .ok p => some p.avoidSeeks
  | .error _ => none

/-- Whether an Except result is a success. -/
def isOkRes {α : Type} (x : Except MkvErr α) : Bool :=
  match x with
  | .ok _ => true
  | .error _ => false

/-! Concrete inputs used by the witnesses, counterexamples and
code-bug evaluations. -/

/-- The all-value-bits-set VINT encoding of width class w (for w between
1 and 8): lead byte with the marker at bit 8 - w and all value bits
set, followed by w - 1 bytes of 255. -/
def vintAllOnes (w : Nat) : List Byte :=
  Fin.ofNat (2 ^ (9 - w) - 1) :: List.replicate (w - 1) 255

/-- A 15-byte segment body holding one cluster of declared size 10 whose
payload is a Timecode child (value 100) followed by a SimpleBlock
(track 1, relative time 5, keyframe flag, payload 0x68). -/
def fileC1 : List Byte :=
  [0x1F, 0x43, 0xB6, 0x75, 0x8A,
   0xE7, 0x81, 0x64,
   0xA3, 0x85, 0x81, 0x00, 0x05, 0x80, 0x68]

/-- A parser over fileC1 whose segment body spans the whole file. -/
def pC1 : ParserState :=
  { file := fileC1, pos := 0, segmentPos := 0, segmentSize := 15,
    segmentInfo := none, tracks := [], attachments := [], chapters := [],
    tags := [], cues := [], clusters := [], avoidSeeks := false }

/-- Twenty padding bytes followed by a cluster element of declared size 4
at position 20. -/
def fileC2 : List Byte :=
  List.replicate 20 0 ++ [0x1F, 0x43, 0xB6, 0x75, 0x84, 0xE7, 0x81, 0xE8, 0x00]

/-- Cues at times 0, 1000 and 2000 mapping to distinct positions; the
cue at time 1000 names segment-relative position 20. -/
def cuesC2 : List Cue :=
  [{ Time := 0, Position := 3 }, { Time := 1000, Position := 20 },
   { Time := 2000, Position := 25 }]

/-- A parser over fileC2 with the cue list cuesC2 and no cluster catalog. -/
def pC2 : ParserState :=
  { file := fileC2, pos := 0, segmentPos := 0, segmentSize := 29,
    segmentInfo := none, tracks := [], attachments := [], chapters := [],
    tags := [], cues := cuesC2, clusters := [], avoidSeeks := false }

/-- A segment body holding one cluster whose payload is a Timecode child
with value 100. -/
def fileC3 : List Byte := [0x1F, 0x43, 0xB6, 0x75, 0x83, 0xE7, 0x81, 0x64]

/-- A parser over fileC3 with no cues, so that seeking falls back to the
linear scan. -/
def pC3 : ParserState :=
  { file := fileC3, pos := 0, segmentPos := 0, segmentSize := 8,
    segmentInfo := none, tracks := [], attachments := [], chapters := [],
    tags := [], cues := [], clusters := [], avoidSeeks := false }

/-- A BlockGroup payload: a Block child (track 1, relative time 0, empty
payload) and a BlockDuration child of value 40, no ReferenceBlock. -/
def bgData40 : List Byte :=
  [0xA1, 0x84, 0x81, 0x00, 0x00, 0x00, 0x9B, 0x81, 0x28]

/-- The same BlockGroup payload with a ReferenceBlock child added. -/
def bgData40R : List Byte := bgData40 ++ [0xFB, 0x81, 0x00]

/-- The BlockGroup element with payload bgData40. -/
def elemBG40 : EBMLElement :=
  { ID := 0xA0, Size := 9, Data := some bgData40, Offset := 0, HeaderSize := 2 }

/-- The BlockGroup element with payload bgData40R. -/
def elemBG40R : EBMLElement :=
  { ID := 0xA0, Size := 12, Data := some bgData40R, Offset := 0, HeaderSize := 2 }

/-- The SimpleBlock of the spec example: track VINT 1, relative time 5,
keyframe flag bit set, payload hi. -/
def elemSB1 : EBMLElement :=
  { ID := 0xA3, Size := 6, Data := some [0x81, 0x00, 0x05, 0x80, 0x68, 0x69],
    Offset := 0, HeaderSize := 2 }

/-- A SimpleBlock whose leading track VINT encodes 256 (two-byte VINT
0x41 0x00), relative time 5, keyframe flag bit set, payload hi. -/
def elemSB256 : EBMLElement :=
  { ID := 0xA3, Size := 7, Data := some [0x41, 0x00, 0x00, 0x05, 0x80, 0x68, 0x69],
    Offset := 0, HeaderSize := 2 }

/-- A block whose four-byte track VINT (value 1) consumes the entire
data, leaving no room for a timestamp. -/
def elemC6 : EBMLElement :=
  { ID := 0xA3, Size := 4, Data := some [0x10, 0x00, 0x00, 0x01],
    Offset := 0, HeaderSize := 2 }

/-- A Void element (id 0xEC) declaring size 2 with exactly two payload
bytes. -/
def rC8ok : Reader := ⟨[0xEC, 0x82, 0x01, 0x02], 0⟩

/-- A Void element declaring size 2 to the 31, above the allocation
ceiling. -/
def rC8big : Reader := ⟨[0xEC, 0x08, 0x80, 0x00, 0x00, 0x00], 0⟩

/-- A Cluster element declaring size 2 to the 31, above the allocation
ceiling. -/
def rC8cluster : Reader := ⟨[0x1F, 0x43, 0xB6, 0x75, 0x08, 0x80, 0x00, 0x00, 0x00], 0⟩

/-- An attachment present in the catalog before close. -/
def attC9 : Attachment := { Name := [97], UID := 7, Position := 3, Length := 5 }

/-- A parser catalog holding one attachment and one cue. -/
def pC9 : ParserState :=
  { file := [], pos := 0, segmentPos := 11, segmentSize := 22,
    segmentInfo := none, tracks := [], attachments := [attC9], chapters := [],
    tags := [], cues := [{ Time := 4, Position := 9 }], clusters := [],
    avoidSeeks := false }

/-- An open demuxer owning pC9. -/
def dC9 : Demuxer := { closed := false, parser := some pC9, packetReader := some initPacketReader }

/-- A 62-byte Matroska file: EBML header (doctype matroska, version 1),
then a Segment whose body is a SeekHead (whose single Seek entry
references the Cues element at segment-relative position 19) followed
by that Cues element (one CuePoint: time 0, track 1, cluster position
64). -/
def fileC10 : List Byte :=
  [0x1A, 0x45, 0xDF, 0xA3, 0x8F,
   0x42, 0x82, 0x88, 0x6D, 0x61, 0x74, 0x72, 0x6F, 0x73, 0x6B, 0x61,
   0x42, 0x87, 0x81, 0x01,
   0x18, 0x53, 0x80, 0x67, 0xA5,
   0x11, 0x4D, 0x9B, 0x74, 0x8E,
   0x4D, 0xBB, 0x8B,
   0x53, 0xAB, 0x84, 0x1C, 0x53, 0xBB, 0x6B,
   0x53, 0xAC, 0x81, 0x13,
   0x1C, 0x53, 0xBB, 0x6B, 0x8D,
   0xBB, 0x8B,
   0xB3, 0x81, 0x00,
   0xB7, 0x86,
   0xF7, 0x81, 0x01,
   0xF1, 0x81, 0x40]

/-- The Seek entry element of fileC10, as decoded by the SeekHead parse. -/
def seekElemC10 : EBMLElement :=
  { ID := 0x4DBB, Size := 11,
    Data := some [0x53, 0xAB, 0x84, 0x1C, 0x53, 0xBB, 0x6B, 0x53, 0xAC, 0x81, 0x13],
    Offset := 5, HeaderSize := 3 }

/-- A parser over fileC10 whose avoidSeeks flag is already set, as the
spec prescribes for the open-time parse in streaming mode. -/
def pC10flagged : ParserState :=
  { file := fileC10, pos := 44, segmentPos := 25, segmentSize := 37,
    segmentInfo := none, tracks := [], attachments := [], chapters := [],
    tags := [], cues := [], clusters := [], avoidSeeks := true }

/-- Propositional equality of Except results is decidable (used by the
concrete evaluations below). -/
instance {ε α : Type} [DecidableEq ε] [DecidableEq α] : DecidableEq (Except ε α) := fun a b =>
  match a, b with
  | .error x, .error y =>
    if h : x = y then .isTrue (h ▸ rfl) else .isFalse (fun hc => h (Except.error.inj hc))
  | .ok x, .ok y =>
    if h : x = y then .isTrue (h ▸ rfl) else .isFalse (fun hc => h (Except.ok.inj hc))
  | .error _, .ok _ => .isFalse (fun hc => Except.noConfusion hc)
  | .ok _, .error _ => .isFalse (fun hc => Except.noConfusion hc)

/-- The unsigned integer payload of a successfully read element. -/
def elemUintOf (x : Except MkvErr (EBMLElement × Reader)) : Option Nat :=
  match x with
  | .ok (e, _) =>
    match e.ReadUint with
    | .ok v => some v
    | .error _ => none
  | .error _ => none

/-- The cluster descriptor that parseClusterInfo yields for the cluster
of fileC1. -/
def cC1 : ClusterInfo := { Position := 0, Timecode := 0, PrevSize := 0, Size := 10 }

/-- A packet reader whose current cluster is the fileC1 cluster. -/
def prC1 : PacketReaderState := { initPacketReader with currentCluster := some cC1 }

/-- The packet decoded from the BlockGroup elemBG40 at base time 100. -/
def pkt40 : Packet :=
  { Track := 1, StartTime := 100, EndTime := 140, FilePos := 0, Flags := KF, Data := [] }

/-- The packet decoded from the BlockGroup elemBG40R at base time 100. -/
def pkt40R : Packet :=
  { Track := 1, StartTime := 100, EndTime := 140, FilePos := 0, Flags := 0, Data := [] }

/-- The packet decoded from the SimpleBlock elemSB1 at base time 100. -/
def pktSB1 : Packet :=
  { Track := 1, StartTime := 105, EndTime := 105, FilePos := 0,
    Flags := 0x80 ||| KF, Data := [0x68, 0x69] }

/-! Helper lemmas shared by the claim theorems. -/

/-- A flags word below 2 ^ 31 has a clear KF bit. -/
theorem and_KF_eq_zero_of_lt {x : Nat} (h : x < 2 ^ 31) : x &&& KF = 0 := by
  rw [KF, Nat.and_two_pow, Nat.testBit_lt_two_pow h]
  rfl

/-- Setting the KF bit makes the keyframe test positive. -/
theorem or_KF_and_KF_ne_zero (x : Nat) : (x ||| KF) &&& KF ≠ 0 := by
  rw [KF, Nat.and_two_pow, Nat.testBit_or, Nat.testBit_two_pow_self]
  simp

/-- A successful readFull returns exactly the requested number of bytes. -/
theorem readFull_ok_length {r : Reader} {n : Nat} {d : List Byte} {r2 : Reader}
    (h : readFull r n = .ok (d, r2)) : d.length = n := by
  unfold readFull at h
  split at h
  next hn =>
    simp only [Except.ok.injEq, Prod.mk.injEq] at h
    obtain ⟨rfl, rfl⟩ := h
    simp [hn]
  next hn =>
    split at h
    · simp at h
    · split at h
      · simp at h
      · simp only [Except.ok.injEq, Prod.mk.injEq] at h
        obtain ⟨rfl, rfl⟩ := h
        simp only [List.length_take, List.length_drop]
        omega

/-- readFull fails only with one of the two truncation errors. -/
theorem readFull_error_cases {r : Reader} {n : Nat} {e : MkvErr}
    (h : readFull r n = .error e) : e = .eof ∨ e = .unexpectedEof := by
  unfold readFull at h
  split at h
  · simp at h
  · split at h
    · simp only [Except.error.injEq] at h
      exact Or.inl h.symm
    · split at h
      · simp only [Except.error.injEq] at h
        exact Or.inr h.symm
      · simp at h

/-- ReadElement records its starting position as the element offset. -/
theorem ReadElement_offset {r : Reader} {e : EBMLElement} {r2 : Reader}
    (h : ReadElement r = .ok (e, r2)) : e.Offset = r.pos := by
  unfold ReadElement at h
  split at h
  · simp at h
  · split at h
    · simp at h
    · split at h
      · split at h
        · simp only [Except.ok.injEq, Prod.mk.injEq] at h
          obtain ⟨rfl, rfl⟩ := h
          rfl
        · split at h
          · simp at h
          · split at h
            · simp at h
            · simp only [Except.ok.injEq, Prod.mk.injEq] at h
              obtain ⟨rfl, rfl⟩ := h
              rfl
      · simp only [Except.ok.injEq, Prod.mk.injEq] at h
        obtain ⟨rfl, rfl⟩ := h
        rfl

/-- ReadElement leaves the payload absent for Segment and Cluster
elements. -/
theorem ReadElement_large_container_data_none {r : Reader} {e : EBMLElement} {r2 : Reader}
    (h : ReadElement r = .ok (e, r2)) (hid : e.ID = 0x18538067 ∨ e.ID = 0x1F43B675) :
    e.Data = none := by
  unfold ReadElement at h
  split at h
  · simp at h
  · split at h
    · simp at h
    · split at h
      · split at h
        · simp only [Except.ok.injEq, Prod.mk.injEq] at h
          obtain ⟨rfl, rfl⟩ := h
          rfl
        next hcond =>
          split at h
          · simp at h
          · split at h
            · simp at h
            · simp only [Except.ok.injEq, Prod.mk.injEq] at h
              obtain ⟨rfl, rfl⟩ := h
              exfalso
              rcases hid with h1 | h1 <;> simp only [] at h1 <;> subst h1 <;>
                exact hcond (by decide)
      · simp only [Except.ok.injEq, Prod.mk.injEq] at h
        obtain ⟨rfl, rfl⟩ := h
        rfl

/-- loadClusterData does not change the current cluster. -/
theorem loadClusterData_currentCluster {p : ParserState} {pr : PacketReaderState}
    {out : ParserState × PacketReaderState}
    (h : loadClusterData p pr = .ok out) : out.2.currentCluster = pr.currentCluster := by
  unfold loadClusterData at h
  split at h
  · simp at h
  · split at h
    · simp at h
    · split at h
      · split at h
        · dsimp only at h
          split at h
          · simp at h
          · simp only [Except.ok.injEq] at h
            subst h
            rfl
        · simp only [Except.ok.injEq] at h
          subst h
          rfl
      · simp at h

/-- Structural facts about a packet produced by parseBlockData: end time
equals start time, the start time is a reduced 64-bit value, the flags
word is the raw flags byte, and the track is the leading VINT modulo
256. -/
theorem parseBlockData_ok {ct : Nat} {data : List Byte} {mask offset : Nat} {q : Packet}
    (h : parseBlockData ct data mask offset = .ok (some q)) :
    q.EndTime = q.StartTime ∧ q.StartTime < 2 ^ 64 ∧ q.Flags < 256 ∧
    q.Track = (readVINTData data).1 % 256 := by
  simp only [parseBlockData] at h
  split at h
  · simp at h
  · split at h
    · simp at h
    · split at h
      · simp only [Except.ok.injEq, Option.some.injEq] at h
        subst h
        refine ⟨rfl, ?_, ?_, rfl⟩
        · exact Nat.mod_lt _ (by decide)
        · exact (Fin.isLt _)
      · simp at h

/-- When the best-cue fold returns nothing, the accumulator was empty and
no cue time is at most the target. -/
theorem bestCueGo_none {timecode : Nat} :
    ∀ {l : List Cue} {acc : Option Cue}, bestCueGo l acc timecode = none →
      acc = none ∧ ∀ c ∈ l, ¬ c.Time ≤ timecode := by
  intro l
  induction l with
  | nil =>
    intro acc h
    simp only [bestCueGo] at h
    exact ⟨h, by simp⟩
  | cons c rest ih =>
    intro acc h
    simp only [bestCueGo] at h
    obtain ⟨hacc2, hrest⟩ := ih h
    by_cases hc : c.Time ≤ timecode
    · rw [if_pos hc] at hacc2
      exfalso
      rcases acc with _ | a
      · simp at hacc2
      · dsimp only at hacc2
        split at hacc2 <;> simp at hacc2
    · rw [if_neg hc] at hacc2
      refine ⟨hacc2, ?_⟩
      intro c1 hc1
      rcases List.mem_cons.mp hc1 with rfl | hmem
      · exact hc
      · exact hrest c1 hmem

/-- Specification of the best-cue fold: the result is the accumulator or
a list member whose time is at most the target, it dominates every
eligible list member, and it dominates the accumulator. -/
theorem bestCueGo_some {timecode : Nat} :
    ∀ {l : List Cue} {acc : Option Cue} {b : Cue},
      (∀ a, acc = some a → a.Time ≤ timecode) →
      bestCueGo l acc timecode = some b →
      (acc = some b ∨ (b ∈ l ∧ b.Time ≤ timecode)) ∧
      (∀ c ∈ l, c.Time ≤ timecode → c.Time ≤ b.Time) ∧
      (∀ a, acc = some a → a.Time ≤ b.Time) := by
  intro l
  induction l with
  | nil =>
    intro acc b hinv h
    simp only [bestCueGo] at h
    refine ⟨Or.inl h, by simp, fun a ha => ?_⟩
    have hab : a = b := by
      rw [ha] at h
      exact Option.some.inj h
    exact hab ▸ le_refl _
  | cons c rest ih =>
    intro acc b hinv h
    simp only [bestCueGo] at h
    by_cases hc : c.Time ≤ timecode
    · rw [if_pos hc] at h
      rcases hacc : acc with _ | a
      · rw [hacc] at h
        have hinv2 : ∀ a, (some c : Option Cue) = some a → a.Time ≤ timecode := by
          intro a ha
          rw [← Option.some.inj ha]
          exact hc
        obtain ⟨h1, h2, h3⟩ := ih hinv2 h
        refine ⟨?_, ?_, by simp⟩
        · rcases h1 with h1 | h1
          · have : c = b := Option.some.inj h1
            exact Or.inr ⟨this ▸ List.mem_cons_self c rest, this ▸ hc⟩
          · exact Or.inr ⟨List.mem_cons_of_mem c h1.1, h1.2⟩
        · intro c1 hc1 hle
          rcases List.mem_cons.mp hc1 with rfl | hmem
          · exact h3 c1 rfl
          · exact h2 c1 hmem hle
      · rw [hacc] at h
        dsimp only at h
        by_cases hlt : a.Time < c.Time
        · rw [if_pos hlt] at h
          have hinv2 : ∀ a0, (some c : Option Cue) = some a0 → a0.Time ≤ timecode := by
            intro a0 ha0
            rw [← Option.some.inj ha0]
            exact hc
          obtain ⟨h1, h2, h3⟩ := ih hinv2 h
          have hcb : c.Time ≤ b.Time := h3 c rfl
          refine ⟨?_, ?_, ?_⟩
          · rcases h1 with h1 | h1
            · have : c = b := Option.some.inj h1
              exact Or.inr ⟨this ▸ List.mem_cons_self c rest, this ▸ hc⟩
            · exact Or.inr ⟨List.mem_cons_of_mem c h1.1, h1.2⟩
          · intro c1 hc1 hle
            rcases List.mem_cons.mp hc1 with rfl | hmem
            · exact hcb
            · exact h2 c1 hmem hle
          · intro a0 ha0
            have : a0 = a := (Option.some.inj ha0).symm
            subst this
            exact le_trans (le_of_lt hlt) hcb
        · rw [if_neg hlt] at h
          have hinv2 : ∀ a0, (some a : Option Cue) = some a0 → a0.Time ≤ timecode := by
            intro a0 ha0
            rw [← Option.some.inj ha0]
            exact hinv a hacc
          obtain ⟨h1, h2, h3⟩ := ih hinv2 h
          have hab : a.Time ≤ b.Time := h3 a rfl
          refine ⟨?_, ?_, ?_⟩
          · rcases h1 with h1 | h1
            · exact Or.inl (hacc ▸ h1)
            · exact Or.inr ⟨List.mem_cons_of_mem c h1.1, h1.2⟩
          · intro c1 hc1 hle
            rcases List.mem_cons.mp hc1 with rfl | hmem
            · exact le_trans (Nat.le_of_not_lt hlt) hab
            · exact h2 c1 hmem hle
          · intro a0 ha0
            have : a0 = a := (Option.some.inj ha0).symm
            subst this
            exact hab
    · rw [if_neg hc] at h
      obtain ⟨h1, h2, h3⟩ := ih hinv h
      refine ⟨?_, ?_, h3⟩
      · rcases h1 with h1 | h1
        · exact Or.inl h1
        · exact Or.inr ⟨List.mem_cons_of_mem c h1.1, h1.2⟩
      · intro c1 hc1 hle
        rcases List.mem_cons.mp hc1 with rfl | hmem
        · exact absurd hle hc
        · exact h2 c1 hmem hle

/-- A list of length at least three starts with three elements. -/
theorem exists_cons3_of_length {α : Type} {l : List α} (h : 3 ≤ l.length) :
    ∃ a b c t, l = a :: b :: c :: t := by
  rcases l with _ | ⟨a, _ | ⟨b, _ | ⟨c, t⟩⟩⟩
  · simp at h
  · simp at h
  · simp at h
  · exact ⟨a, b, c, t, rfl⟩

/-! The verified claims. -/

/-- C1, counterexample: reading the first packet of the one-cluster segment fileC1 allocates and fills pr.clusterData with the entire 10-byte declared payload of the cluster (the file bytes from offset 5 on), refuting the claim that reading packets from a Cluster never buffers a copy of the whole declared payload. -/
theorem claim1_counterexample :
    clusterDataOf (ReadPacketWithMask 0 20 pC1 initPacketReader) =
      some [0xE7, 0x81, 0x64, 0xA3, 0x85, 0x81, 0x00, 0x05, 0x80, 0x68] ∧
    firstClusterSizeOf (ReadPacketWithMask 0 20 pC1 initPacketReader) = some 10 ∧
    (packetReadOf (ReadPacketWithMask 0 20 pC1 initPacketReader)).isSome = true ∧
    fileC1.drop 5 = [0xE7, 0x81, 0x64, 0xA3, 0x85, 0x81, 0x00, 0x05, 0x80, 0x68] ∧
    (fileC1.drop 5).length = 10 :=
  ⟨rfl, rfl, rfl, rfl, rfl⟩

/-- C1, amended: the element reader itself never buffers Segment or Cluster payloads (their Data field is absent), and cluster positions are recorded lazily; but whenever loadClusterData succeeds for the current cluster, the element at the cluster position is a Cluster whose declared size equals the length of the buffer loadClusterData allocated and filled. -/
theorem claim1_amended :
    (∀ (r : Reader) (e : EBMLElement) (r2 : Reader),
      ReadElement r = .ok (e, r2) → e.ID = SegmentID ∨ e.ID = ClusterID →
      e.Data = none) ∧
    (∀ (p : ParserState) (pr : PacketReaderState) (c : ClusterInfo)
      (out : ParserState × PacketReaderState),
      pr.currentCluster = some c → loadClusterData p pr = .ok out →
      elemIdOf (ReadElement ⟨p.file, c.Position⟩) = some ClusterID ∧
      elemSizeOf (ReadElement ⟨p.file, c.Position⟩) = some out.2.clusterData.length) := by
  constructor
  · intro r e r2 h hid
    exact ReadElement_large_container_data_none h hid
  · intro p pr c out hcc h
    rw [loadClusterData, hcc] at h
    split at h
    next hc1 => simp at h
    next c1 hc1 =>
      obtain rfl : c = c1 := Option.some.inj hc1
      split at h
      · simp at h
      next element r1 hre =>
        split at h
        next hidc =>
          split at h
          next hdnone =>
            dsimp only at h
            split at h
            · simp at h
            next cd r3 hrf =>
              simp only [Except.ok.injEq] at h
              subst h
              refine ⟨?_, ?_⟩
              · simp [elemIdOf, hre, hidc]
              · have hlen := readFull_ok_length hrf
                simp [elemSizeOf, hre, hlen]
          next d hdsome =>
            exfalso
            have hnone := ReadElement_large_container_data_none hre (Or.inr hidc)
            rw [hnone] at hdsome
            exact Option.noConfusion hdsome
        next => simp at h

/-- C1, witness: the amended theorem applied to the concrete file fileC1; the cluster element has an absent payload and declared size 10. -/
theorem claim1_witness :
    elemIdOf (ReadElement ⟨pC1.file, 0⟩) = some ClusterID ∧
    elemSizeOf (ReadElement ⟨pC1.file, 0⟩) = some 10 ∧
    elemDataOf (ReadElement ⟨pC1.file, 0⟩) = some none := by
  obtain ⟨hid, hsz⟩ := claim1_amended.2 pC1 prC1 cC1 _ rfl rfl
  refine ⟨hid, hsz, ?_⟩
  have h1 := claim1_amended.1 ⟨pC1.file, 0⟩ _ _ rfl (Or.inr rfl)
  exact congrArg some h1

/-- C2: for every seek whose cue list is non-empty and which succeeds, the selected cue belongs to the list, dominates every cue with time at most the target, has time at most the target whenever any cue does, equals the first cue when every cue time exceeds the target, and the loaded current cluster sits at segment position plus the selected cue position (as 64-bit addition). -/
theorem claim2_theorem (p : ParserState) (pr : PacketReaderState) (T fl : Nat) (b : Cue)
    (hne : p.cues ≠ [])
    (hok : isOkRes (PRSeek p pr T fl) = true)
    (hb : chosenCue p.cues T = some b) :
    b ∈ p.cues ∧
    (∀ c ∈ p.cues, c.Time ≤ T → c.Time ≤ b.Time) ∧
    ((∃ c ∈ p.cues, c.Time ≤ T) → b.Time ≤ T) ∧
    ((∀ c ∈ p.cues, ¬ c.Time ≤ T) → p.cues.head? = some b) ∧
    currentClusterPosOf (PRSeek p pr T fl) = some ((p.segmentPos + b.Position) % 2 ^ 64) := by
  have hlen : 0 < p.cues.length := List.length_pos.mpr hne
  -- the selection facts
  have hsel : b ∈ p.cues ∧
      (∀ c ∈ p.cues, c.Time ≤ T → c.Time ≤ b.Time) ∧
      ((∃ c ∈ p.cues, c.Time ≤ T) → b.Time ≤ T) ∧
      ((∀ c ∈ p.cues, ¬ c.Time ≤ T) → p.cues.head? = some b) := by
    cases hgo : bestCueGo p.cues none T with
    | some b0 =>
      have hb0 : b0 = b := by
        rw [chosenCue, hgo] at hb
        exact Option.some.inj hb
      subst hb0
      obtain ⟨h1, h2, _⟩ := bestCueGo_some (by simp) hgo
      have hmem : b0 ∈ p.cues ∧ b0.Time ≤ T := by
        rcases h1 with h1 | h1
        · exact absurd h1 (by simp)
        · exact h1
      refine ⟨hmem.1, h2, fun _ => hmem.2, fun hall => absurd hmem.2 (hall b0 hmem.1)⟩
    | none =>
      have hhead : p.cues.head? = some b := by
        rw [chosenCue, hgo] at hb
        exact hb
      obtain ⟨_, hall⟩ := bestCueGo_none hgo
      refine ⟨?_, ?_, ?_, fun _ => hhead⟩
      · exact List.mem_of_mem_head? hhead
      · intro c hc hle
        exact absurd hle (hall c hc)
      · intro hex
        obtain ⟨c, hc, hle⟩ := hex
        exact absurd hle (hall c hc)
  refine ⟨hsel.1, hsel.2.1, hsel.2.2.1, hsel.2.2.2, ?_⟩
  -- the loaded-cluster position
  obtain ⟨out, hres⟩ : ∃ out, PRSeek p pr T fl = .ok out := by
    cases hres : PRSeek p pr T fl with
    | error e => rw [hres] at hok; simp [isOkRes] at hok
    | ok out => exact ⟨out, rfl⟩
  rw [hres, currentClusterPosOf]
  have hres2 := hres
  rw [PRSeek] at hres2
  rw [if_pos hlen] at hres2
  rw [seekWithCues] at hres2
  split at hres2
  next heqnil => exact absurd heqnil hne
  next c0 rest heqcons =>
    have hbest : (match bestCueGo p.cues none T with
        | some x => x
        | none => c0) = b := by
      cases hgo : bestCueGo p.cues none T with
      | some b0 =>
        rw [chosenCue, hgo] at hb
        exact Option.some.inj hb
      | none =>
        rw [chosenCue, hgo] at hb
        rw [heqcons] at hb
        exact Option.some.inj hb
    rw [hbest] at hres2
    dsimp only at hres2
    split at hres2
    next cl hfind =>
      have hclpos : cl.Position = (p.segmentPos + b.Position) % 2 ^ 64 := by
        have := List.find?_some hfind
        exact eq_of_beq this
      have hcc := loadClusterData_currentCluster hres2
      simp only at hcc
      rw [hcc]
      simp [hclpos]
    next hfind =>
      split at hres2
      · simp at hres2
      next element r1 hre =>
        split at hres2
        next hidc =>
          have hcc := loadClusterData_currentCluster hres2
          simp only at hcc
          rw [hcc]
          have hoff : element.Offset = (p.segmentPos + b.Position) % 2 ^ 64 :=
            ReadElement_offset hre
          simp [parseClusterInfo, hoff]
        next => simp at hres2

/-- C2, witness: with cues at times 0, 1000 and 2000, seeking to 1500 selects the cue at time 1000 and loads the cluster at its segment-relative position 20. -/
theorem claim2_witness :
    chosenCue cuesC2 1500 = some { Time := 1000, Position := 20 } ∧
    currentClusterPosOf (PRSeek pC2 initPacketReader 1500 0) = some 20 := by
  have hb : chosenCue pC2.cues 1500 = some { Time := 1000, Position := 20 } := by decide
  have h := claim2_theorem pC2 initPacketReader 1500 0 { Time := 1000, Position := 20 }
    (by decide) (by decide) hb
  exact ⟨hb, h.2.2.2.2.trans (by decide)⟩

/-- C3, code bug: the first cluster of fileC3 carries a Timecode child of value 100, yet seeking to 100 without cues fails with the error timecode not found, because parseClusterInfo never decodes the Timecode child and seekLinear compares the target against the zero-initialized timecode field; a seek to 0 does succeed, showing the comparison is against zero rather than the actual cluster base timecode. -/
theorem claim3_code_bug :
    PRSeek pC3 initPacketReader 100 0 = .error (.errMsg "timecode not found") ∧
    elemIdOf (ReadElement ⟨fileC3, 0⟩) = some ClusterID ∧
    elemIdOf (ReadElement ⟨fileC3.drop 5, 0⟩) = some TimecodeID ∧
    elemUintOf (ReadElement ⟨fileC3.drop 5, 0⟩) = some 100 ∧
    isOkRes (PRSeek pC3 initPacketReader 0 0) = true :=
  ⟨rfl, rfl, rfl, rfl, rfl⟩

/-- C4: every BlockGroup decoded into a packet has end time equal to start time plus the collected BlockDuration value (zero when the child is absent; the sum reduced as 64-bit addition), and its keyframe bit is set if and only if the group contains no ReferenceBlock children. -/
theorem claim4_theorem (ct : Nat) (element : EBMLElement) (mask : Nat)
    (bd : List Byte) (dur : Nat) (refs : List Int) (pkt : Packet)
    (hc : bgCollect (element.Data.getD []) = .ok (bd, dur, refs))
    (hp : parseBlockGroup ct element mask = .ok (some pkt)) :
    pkt.EndTime = (pkt.StartTime + dur) % 2 ^ 64 ∧ ((pkt.Flags &&& KF ≠ 0) ↔ refs = []) := by
  rw [parseBlockGroup, hc] at hp
  dsimp only at hp
  split at hp
  · simp at hp
  · split at hp
    · simp at hp
    · simp at hp
    next q hq =>
      obtain ⟨hEq, hlt, hflags, _⟩ := parseBlockData_ok hq
      simp only [Except.ok.injEq, Option.some.injEq] at hp
      subst hp
      by_cases hdur : 0 < dur
      · rw [if_pos hdur]
        by_cases href : refs.length = 0
        · rw [if_pos href]
          refine ⟨rfl, ?_⟩
          simp only [List.length_eq_zero] at href
          simp [or_KF_and_KF_ne_zero, href]
        · rw [if_neg href]
          refine ⟨rfl, ?_⟩
          have hz : q.Flags &&& KF = 0 :=
            and_KF_eq_zero_of_lt (lt_trans hflags (by norm_num [KF]))
          simp only [List.length_eq_zero] at href
          simp [hz, href]
      · rw [if_neg hdur]
        have hdz : dur = 0 := by omega
        subst hdz
        have hend : q.EndTime = (q.StartTime + 0) % 2 ^ 64 := by
          rw [hEq, Nat.add_zero, Nat.mod_eq_of_lt hlt]
        by_cases href : refs.length = 0
        · rw [if_pos href]
          refine ⟨hend, ?_⟩
          simp only [List.length_eq_zero] at href
          simp [or_KF_and_KF_ne_zero, href]
        · rw [if_neg href]
          refine ⟨hend, ?_⟩
          have hz : q.Flags &&& KF = 0 :=
            and_KF_eq_zero_of_lt (lt_trans hflags (by norm_num [KF]))
          simp only [List.length_eq_zero] at href
          simp [hz, href]

/-- C4, witness: the theorem applied to a BlockGroup with a Block, BlockDuration 40 and no ReferenceBlock (end = start + 40 and keyframe set) and to the same group with a ReferenceBlock added (keyframe clear, duration unchanged). -/
theorem claim4_witness :
    (pkt40.EndTime = (pkt40.StartTime + 40) % 2 ^ 64 ∧
      (pkt40.Flags &&& KF ≠ 0 ↔ ([] : List Int) = [])) ∧
    (pkt40R.EndTime = (pkt40R.StartTime + 40) % 2 ^ 64 ∧
      (pkt40R.Flags &&& KF ≠ 0 ↔ ([0] : List Int) = [])) :=
  ⟨claim4_theorem 100 elemBG40 0 [0x81, 0x00, 0x00, 0x00] 40 [] pkt40 rfl rfl,
   claim4_theorem 100 elemBG40R 0 [0x81, 0x00, 0x00, 0x00] 40 [0] pkt40R rfl rfl⟩

/-- C5, counterexample: a SimpleBlock whose leading track VINT encodes 256 decodes into a packet with track number 0, because the packet track field is an 8-bit integer; the decoded track differs from the leading VINT value, refuting the claim as stated. -/
theorem claim5_counterexample :
    readVINTData (elemSB256.Data.getD []) = (256, 2) ∧
    (packetOf (parseSimpleBlock 100 elemSB256 0)).map Packet.Track = some 0 ∧
    (0 : Nat) ≠ 256 :=
  ⟨rfl, rfl, by decide⟩

/-- C5, amended: every SimpleBlock decoded into a packet has track number equal to the leading VINT reduced modulo 256, start and end times both equal to the cluster base timecode plus the signed big-endian 16-bit relative timecode (as wrapping 64-bit addition), the keyframe bit set exactly when the top bit of the flags byte is set, the remaining bytes as payload, and the element offset as file position. -/
theorem claim5_amended (ct : Nat) (element : EBMLElement) (mask : Nat) (pkt : Packet)
    (tn ts : Nat) (b0 b1 fl : Byte) (rest : List Byte)
    (hv : readVINTData (element.Data.getD []) = (tn, ts))
    (hd : (element.Data.getD []).drop ts = b0 :: b1 :: fl :: rest)
    (hp : parseSimpleBlock ct element mask = .ok (some pkt)) :
    pkt.Track = tn % 256 ∧
    pkt.StartTime = (ct + uint64OfInt16 (b0.val * 256 + b1.val)) % 2 ^ 64 ∧
    pkt.EndTime = pkt.StartTime ∧
    ((pkt.Flags &&& KF ≠ 0) ↔ fl.val &&& 0x80 ≠ 0) ∧
    pkt.Data = rest ∧ pkt.FilePos = element.Offset := by
  rw [parseSimpleBlock] at hp
  dsimp only at hp
  rw [hv] at hp
  dsimp only at hp
  rw [hd] at hp
  dsimp only at hp
  split at hp
  · simp at hp
  · split at hp
    · simp at hp
    · split at hp
      · simp at hp
      · by_cases hkf : fl.val &&& 0x80 ≠ 0
        · rw [if_pos hkf] at hp
          simp only [Except.ok.injEq, Option.some.injEq] at hp
          subst hp
          refine ⟨rfl, rfl, rfl, ?_, rfl, rfl⟩
          simp [or_KF_and_KF_ne_zero, hkf]
        · rw [if_neg hkf] at hp
          simp only [Except.ok.injEq, Option.some.injEq] at hp
          subst hp
          refine ⟨rfl, rfl, rfl, ?_, rfl, rfl⟩
          have hz : (fl.val : Nat) &&& KF = 0 :=
            and_KF_eq_zero_of_lt (lt_trans (Fin.isLt fl) (by norm_num [KF]))
          simp [hz, hkf]

/-- C5, witness: the amended theorem applied to the spec example, base timecode 100, track VINT 1, relative timecode 5, top flag bit set: start = end = 105 with the keyframe bit set. -/
theorem claim5_witness :
    pktSB1.Track = 1 % 256 ∧
    pktSB1.StartTime = (100 + uint64OfInt16 ((0 : Byte).val * 256 + (5 : Byte).val)) % 2 ^ 64 ∧
    pktSB1.EndTime = pktSB1.StartTime ∧
    ((pktSB1.Flags &&& KF ≠ 0) ↔ (0x80 : Byte).val &&& 0x80 ≠ 0) ∧
    pktSB1.Data = [0x68, 0x69] ∧ pktSB1.FilePos = elemSB1.Offset :=
  claim5_amended 100 elemSB1 0 pktSB1 1 1 0 5 0x80 [0x68, 0x69] rfl rfl rfl

/-- C6, counterexample: for a block whose four-byte track VINT (track 1) consumes all the block bytes, and a mask with bit 1 set, the SimpleBlock path fails with an error before consulting the mask while the BlockGroup path silently excludes the block: the exclusion decision is not identical in the two paths, refuting the claim as stated. -/
theorem claim6_counterexample :
    readVINTData (elemC6.Data.getD []) = (1, 4) ∧
    parseSimpleBlock 100 elemC6 2 = .error (.errMsg "invalid track number in simple block") ∧
    parseBlockData 100 (elemC6.Data.getD []) 2 0 = .ok none ∧
    (2 : Nat) &&& goShl1 1 ≠ 0 :=
  ⟨rfl, rfl, rfl, by decide⟩

/-- C6, amended: for every block whose track VINT leaves at least one byte, a set mask bit for the track yields exclusion, no packet and no error, identically in the SimpleBlock and BlockGroup paths; and when the mask bit is clear and a full timestamp and flags byte follow, both paths decode a packet carrying the track number modulo 256. -/
theorem claim6_amended (ct : Nat) (element : EBMLElement) (mask off tn ts : Nat)
    (hv : readVINTData (element.Data.getD []) = (tn, ts))
    (h4 : 4 ≤ (element.Data.getD []).length)
    (hts : ts < (element.Data.getD []).length) :
    (mask &&& goShl1 tn ≠ 0 →
       parseSimpleBlock ct element mask = .ok none ∧
       parseBlockData ct (element.Data.getD []) mask off = .ok none) ∧
    (mask &&& goShl1 tn = 0 → ts + 3 ≤ (element.Data.getD []).length →
       (packetOf (parseSimpleBlock ct element mask)).isSome = true ∧
       (packetOf (parseBlockData ct (element.Data.getD []) mask off)).isSome = true ∧
       (packetOf (parseSimpleBlock ct element mask)).map Packet.Track = some (tn % 256) ∧
       (packetOf (parseBlockData ct (element.Data.getD []) mask off)).map Packet.Track =
         some (tn % 256)) := by
  have hnot4 : ¬ (element.Data.getD []).length < 4 := by omega
  have hnotts : ¬ (element.Data.getD []).length ≤ ts := by omega
  constructor
  · intro hmask
    constructor
    · rw [parseSimpleBlock]
      dsimp only
      rw [hv]
      dsimp only
      rw [if_neg hnot4, if_neg hnotts, if_pos hmask]
    · rw [parseBlockData]
      dsimp only
      rw [hv]
      dsimp only
      rw [if_neg hnot4, if_pos hmask]
  · intro hmask hlen3
    have hd3 : 3 ≤ ((element.Data.getD []).drop ts).length := by
      simp only [List.length_drop]
      omega
    obtain ⟨b0, b1, flb, rest, hd⟩ := exists_cons3_of_length hd3
    have hmaskif : ¬ mask &&& goShl1 tn ≠ 0 := by simp [hmask]
    refine ⟨?_, ?_, ?_, ?_⟩
    · rw [parseSimpleBlock]
      dsimp only
      rw [hv]
      dsimp only
      rw [if_neg hnot4, if_neg hnotts, if_neg hmaskif, hd]
      dsimp only [packetOf]
      split <;> rfl
    · rw [parseBlockData]
      dsimp only
      rw [hv]
      dsimp only
      rw [if_neg hnot4, if_neg hmaskif, hd]
      rfl
    · rw [parseSimpleBlock]
      dsimp only
      rw [hv]
      dsimp only
      rw [if_neg hnot4, if_neg hnotts, if_neg hmaskif, hd]
      dsimp only [packetOf]
      split <;> rfl
    · rw [parseBlockData]
      dsimp only
      rw [hv]
      dsimp only
      rw [if_neg hnot4, if_neg hmaskif, hd]
      rfl

/-- C6, witness: the amended theorem applied to the track-1 block data of elemSB1 with mask bit 1 set (both paths exclude) and with mask 0 (both paths decode a packet for track 1). -/
theorem claim6_witness :
    (parseSimpleBlock 100 elemSB1 2 = .ok none ∧
     parseBlockData 100 (elemSB1.Data.getD []) 2 0 = .ok none) ∧
    ((packetOf (parseSimpleBlock 100 elemSB1 0)).isSome = true ∧
     (packetOf (parseBlockData 100 (elemSB1.Data.getD []) 0 0)).isSome = true ∧
     (packetOf (parseSimpleBlock 100 elemSB1 0)).map Packet.Track = some (1 % 256) ∧
     (packetOf (parseBlockData 100 (elemSB1.Data.getD []) 0 0)).map Packet.Track =
       some (1 % 256)) := by
  constructor
  · exact (claim6_amended 100 elemSB1 2 0 1 1 rfl (by decide) (by decide)).1 (by decide)
  · exact (claim6_amended 100 elemSB1 0 0 1 1 rfl (by decide) (by decide)).2 (by decide) (by decide)

/-- C7, counterexample: the one-byte all-value-bits-set encoding 0xFF decodes to the literal size 127, not to the unknown-size sentinel, refuting the claim for width class 1. -/
theorem claim7_counterexample :
    ReadElementSize ⟨[255], 0⟩ = .ok (127, ⟨[255], 1⟩) ∧ (127 : Nat) ≠ 2 ^ 64 - 1 :=
  ⟨rfl, by decide⟩

/-- C7, amended: for every width class w from 1 to 8, the all-value-bits-set encoding decodes to its literal value except for width 8, whose value 2 ^ 56 - 1 alone is reported as the unknown-size sentinel 2 ^ 64 - 1. -/
theorem claim7_amended (w : Nat) (h1 : 1 ≤ w) (h8 : w ≤ 8) :
    ReadElementSize ⟨vintAllOnes w, 0⟩ =
      .ok (if w = 8 then 2 ^ 64 - 1 else 2 ^ (7 * w) - 1, ⟨vintAllOnes w, w⟩) := by
  interval_cases w <;> rfl

/-- C7, witness: the amended theorem at width 1, literal 127, and at width 8, the sentinel. -/
theorem claim7_witness :
    ReadElementSize ⟨vintAllOnes 1, 0⟩ = .ok (127, ⟨vintAllOnes 1, 1⟩) ∧
    ReadElementSize ⟨vintAllOnes 8, 0⟩ = .ok (2 ^ 64 - 1, ⟨vintAllOnes 8, 8⟩) := by
  constructor
  · have h := claim7_amended 1 (by norm_num) (by norm_num)
    norm_num at h
    exact h
  · have h := claim7_amended 8 (by norm_num) (by norm_num)
    norm_num at h
    exact h

/-- C8, counterexample: a Cluster element declaring size 2 ^ 31, above the allocation ceiling 2 ^ 31 - 1, is read successfully with an absent payload instead of failing with the too-large error, refuting the for-every-element form of the claim for the two large container types. -/
theorem claim8_counterexample :
    ReadElement rC8cluster =
      .ok ({ ID := 0x1F43B675, Size := 2 ^ 31, Data := none, Offset := 0, HeaderSize := 9 },
           { data := rC8cluster.data, pos := 9 }) ∧
    2 ^ 31 - 1 < 2 ^ 31 :=
  ⟨rfl, by decide⟩

/-- C8, amended: for every element read that is not Segment or Cluster and whose declared size is not the unknown sentinel, a size above 2 ^ 31 - 1 fails with the distinguished elementTooLarge error, and a size within the ceiling either buffers exactly size bytes or fails with one of the truncation errors eof and unexpectedEof, both distinct from elementTooLarge. -/
theorem claim8_amended (r : Reader) (id size : Nat) (r1 r2 : Reader)
    (hid : ReadElementID r = .ok (id, r1))
    (hsz : ReadElementSize r1 = .ok (size, r2))
    (hseg : id ≠ SegmentID) (hclus : id ≠ ClusterID)
    (hunk : size ≠ 2 ^ 64 - 1) :
    (2 ^ 31 - 1 < size → ReadElement r = .error .elementTooLarge) ∧
    (size ≤ 2 ^ 31 - 1 →
      (elemDataLenOf (ReadElement r) = some size ∨
       ReadElement r = .error .eof ∨ ReadElement r = .error .unexpectedEof)) ∧
    (MkvErr.eof ≠ .elementTooLarge ∧ MkvErr.unexpectedEof ≠ .elementTooLarge) := by
  have hseg1 : id ≠ 0x18538067 := by simpa [SegmentID] using hseg
  have hclus1 : id ≠ 0x1F43B675 := by simpa [ClusterID] using hclus
  have hcond : ¬ (IsContainer id && (id == 0x18538067 || id == 0x1F43B675)) = true := by
    simp [hseg1, hclus1]
  have hre : ReadElement r =
      (if 2 ^ 31 - 1 < size then .error .elementTooLarge
       else match readFull r2 size with
            | .error e => .error e
            | .ok (bytes, r3) =>
              .ok (⟨id, size, some bytes, r.pos, r2.pos - r.pos⟩, r3)) := by
    rw [ReadElement]
    dsimp only
    rw [hid]
    dsimp only
    rw [hsz]
    dsimp only
    rw [if_pos hunk, if_neg hcond]
  refine ⟨?_, ?_, by decide, by decide⟩
  · intro hbig
    rw [hre, if_pos hbig]
  · intro hsmall
    rw [hre, if_neg (by omega)]
    cases hf : readFull r2 size with
    | error e =>
      rcases readFull_error_cases hf with rfl | rfl
      · right
        left
        rfl
      · right
        right
        rfl
    | ok pair =>
      obtain ⟨d, r3⟩ := pair
      left
      have hlen := readFull_ok_length hf
      simp [elemDataLenOf, hlen]

/-- C8, witness: a Void element declaring size 2 ^ 31 fails with elementTooLarge, and one declaring size 2 over two available bytes buffers exactly two bytes. -/
theorem claim8_witness :
    ReadElement rC8big = .error .elementTooLarge ∧
    elemDataLenOf (ReadElement rC8ok) = some 2 := by
  constructor
  · exact (claim8_amended rC8big 0xEC (2 ^ 31) ⟨rC8big.data, 1⟩ ⟨rC8big.data, 6⟩ (by decide)
      (by decide) (by decide) (by decide) (by decide)).1 (by norm_num)
  · have h := (claim8_amended rC8ok 0xEC 2 ⟨rC8ok.data, 1⟩ ⟨rC8ok.data, 2⟩ rfl rfl
      (by decide) (by decide) (by decide)).2.1 (by norm_num)
    rcases h with h | h | h
    · exact h
    · exact absurd h (by decide)
    · exact absurd h (by decide)

/-- C9, counterexample: after Close, GetAttachments returns the empty list, its signature has no error channel, and the attachment present before the close is gone silently; GetCues and GetCuesPos likewise return empty and zero values and Seek is a silent no-op: these operations do not fail with a closed error, refuting the claim as stated. -/
theorem claim9_counterexample :
    Demuxer.GetAttachments dC9 = [attC9] ∧
    Demuxer.GetAttachments (Demuxer.Close dC9) = [] ∧
    Demuxer.GetCues (Demuxer.Close dC9) = [] ∧
    Demuxer.GetCuesPos (Demuxer.Close dC9) = 0 ∧
    Demuxer.Seek (Demuxer.Close dC9) 5 0 = Demuxer.Close dC9 :=
  ⟨rfl, rfl, rfl, rfl, rfl⟩

/-- C9, amended: Close is idempotent and marks the demuxer closed; afterwards GetNumTracks, GetTrackInfo, GetFileInfo, ReadPacket and ReadPacketMask fail with the demuxer-is-closed error, while the collection accessors return empty lists, the position and timecode accessors return zero, and Seek, SeekCueAware, SkipToKeyframe and SetTrackMask leave the closed demuxer unchanged; none of these touches the dropped internal state. -/
theorem claim9_amended (d : Demuxer) (t tc fl m fuel : Nat) :
    Demuxer.Close (Demuxer.Close d) = Demuxer.Close d ∧
    (Demuxer.Close d).closed = true ∧
    Demuxer.GetNumTracks (Demuxer.Close d) = .error (.errMsg "demuxer is closed") ∧
    Demuxer.GetTrackInfo (Demuxer.Close d) t = .error (.errMsg "demuxer is closed") ∧
    Demuxer.GetFileInfo (Demuxer.Close d) = .error (.errMsg "demuxer is closed") ∧
    Demuxer.ReadPacket (Demuxer.Close d) fuel = .error (.errMsg "demuxer is closed") ∧
    Demuxer.ReadPacketMask (Demuxer.Close d) m fuel = .error (.errMsg "demuxer is closed") ∧
    Demuxer.GetAttachments (Demuxer.Close d) = [] ∧
    Demuxer.GetChapters (Demuxer.Close d) = [] ∧
    Demuxer.GetTags (Demuxer.Close d) = [] ∧
    Demuxer.GetCues (Demuxer.Close d) = [] ∧
    Demuxer.GetSegment (Demuxer.Close d) = 0 ∧
    Demuxer.GetSegmentTop (Demuxer.Close d) = 0 ∧
    Demuxer.GetCuesPos (Demuxer.Close d) = 0 ∧
    Demuxer.GetCuesTopPos (Demuxer.Close d) = 0 ∧
    Demuxer.GetLowestQTimecode (Demuxer.Close d) = 0 ∧
    Demuxer.Seek (Demuxer.Close d) tc fl = Demuxer.Close d ∧
    Demuxer.SeekCueAware (Demuxer.Close d) tc fl = Demuxer.Close d ∧
    Demuxer.SkipToKeyframe (Demuxer.Close d) fuel = Demuxer.Close d ∧
    Demuxer.SetTrackMask (Demuxer.Close d) m = Demuxer.Close d := by
  have hcl : (Demuxer.Close d).closed = true := by
    rw [Demuxer.Close]
    split
    next h => exact h
    next => rfl
  have hcc : Demuxer.Close (Demuxer.Close d) = Demuxer.Close d := by
    conv_lhs => rw [Demuxer.Close]
    rw [if_pos hcl]
  refine ⟨hcc, hcl, ?_, ?_, ?_, ?_, ?_, ?_, ?_, ?_, ?_, ?_, ?_, ?_, ?_, ?_, ?_, ?_, ?_, ?_⟩
  · simp [Demuxer.GetNumTracks, hcl]
  · simp [Demuxer.GetTrackInfo, hcl]
  · simp [Demuxer.GetFileInfo, hcl]
  · simp [Demuxer.ReadPacket, hcl]
  · simp [Demuxer.ReadPacketMask, hcl]
  · simp [Demuxer.GetAttachments, hcl]
  · simp [Demuxer.GetChapters, hcl]
  · simp [Demuxer.GetTags, hcl]
  · simp [Demuxer.GetCues, hcl]
  · simp [Demuxer.GetSegment, hcl]
  · simp [Demuxer.GetSegmentTop, hcl]
  · simp [Demuxer.GetCuesPos, hcl]
  · simp [Demuxer.GetCuesTopPos, hcl]
  · simp [Demuxer.GetLowestQTimecode, hcl]
  · simp [Demuxer.Seek, hcl]
  · simp [Demuxer.SeekCueAware, Demuxer.Seek, hcl]
  · simp [Demuxer.SkipToKeyframe, hcl]
  · simp [Demuxer.SetTrackMask, hcl]

/-- C10, code bug: opening fileC10 with NewStreamingParser finishes with avoidSeeks true, yet its single cue point appears twice in the catalog: once parsed through the SeekHead-driven jump performed during the open-time segment parse, when avoidSeeks is still false because the flag is set only after NewParser returns, and once by the linear forward scan; the plain NewParser yields the same double entry, and with the flag set beforehand, as the spec prescribes for streaming mode, parseSeek performs no jump and leaves the parser unchanged. -/
theorem claim10_code_bug :
    cuesLenOf (NewStreamingParser fileC10) = some 2 ∧
    avoidSeeksOf (NewStreamingParser fileC10) = some true ∧
    cuesLenOf (NewParser fileC10) = some 2 ∧
    parseSeek pC10flagged seekElemC10 = .ok pC10flagged :=
  ⟨rfl, rfl, rfl, rfl⟩

end Mkv
